import Mathlib

namespace Assess

/-- Python two-element slice-and-unpack `a, b = [x, y][::int(sign)]` as used in the
delta-forcing coefficient functions: step `1` keeps the order, step `-1` reverses it,
and every other integer step is an error (step `0` raises `ValueError: slice step
cannot be zero`, and `|step| ≥ 2` produces a one-element list that fails to unpack),
modelled as `none`. -/
def signSelect (x y : ℚ) (sign : ℤ) : Option (ℚ × ℚ) :=
  if sign = 1 then some (x, y) else if sign = -1 then some (y, x) else none

/-- The algebraic template of `coefficients_cylinder_delta_fs`: the closed-form
expressions for (A, B, C, D) in the symbols `alpha_pm`, `alpha_mp`, `pm`
(module docstring of `delta.py`), before the sign-dependent substitution. -/
def template_cylinder_fs (alpha_pm alpha_mp : ℚ) (pm : ℤ) (rp : ℚ) (n : ℤ)
    (g nu : ℚ) : ℚ × ℚ × ℚ × ℚ :=
  let A := ((((((-(1/8)) * (alpha_mp ^ (((2 * n) - 2) : ℤ) - 1)) * g) * (pm : ℚ)) * rp ^ (((-n) + 2) : ℤ)) / (((alpha_mp ^ (((2 * n) - 2) : ℤ) - alpha_pm ^ (((2 * n) - 2) : ℤ)) * ((n : ℚ) - 1)) * nu))
  let B := (((((((-(1/8)) * (alpha_mp ^ (((2 * n) + 2) : ℤ) - 1)) * alpha_pm ^ (((2 * n) + 2) : ℤ)) * g) * (pm : ℚ)) * rp ^ ((n + 2) : ℤ)) / (((alpha_mp ^ (((2 * n) + 2) : ℤ) - alpha_pm ^ (((2 * n) + 2) : ℤ)) * ((n : ℚ) + 1)) * nu))
  let C := (((((1/8) * (alpha_mp ^ (((2 * n) + 2) : ℤ) - 1)) * g) * (pm : ℚ)) / ((((alpha_mp ^ (((2 * n) + 2) : ℤ) - alpha_pm ^ (((2 * n) + 2) : ℤ)) * ((n : ℚ) + 1)) * nu) * rp ^ (n : ℤ)))
  let D := (((((((1/8) * (alpha_mp ^ (((2 * n) - 2) : ℤ) - 1)) * alpha_pm ^ (((2 * n) - 2) : ℤ)) * g) * (pm : ℚ)) * rp ^ (n : ℤ)) / (((alpha_mp ^ (((2 * n) - 2) : ℤ) - alpha_pm ^ (((2 * n) - 2) : ℤ)) * ((n : ℚ) - 1)) * nu))
  (A, B, C, D)

/-- `coefficients_cylinder_delta_fs` from `delta.py`: cylindrical shell, delta forcing,
free-slip at both boundaries.  `sign = ±1` selects the upper/lower half via the
`[Rp/rp, Rm/rp][::int(sign)]` slice (any other sign is a Python error). -/
def coefficients_cylinder_delta_fs (Rp Rm rp : ℚ) (n : ℤ) (g nu : ℚ) (sign : ℤ) :
    Option (ℚ × ℚ × ℚ × ℚ) :=
  (signSelect (Rp / rp) (Rm / rp) sign).map fun al =>
    template_cylinder_fs al.1 al.2 sign rp n g nu

/-- The algebraic template of `coefficients_cylinder_delta_ns` in the symbols
`alpha_p`, `alpha_m`, `alpha_pm`, `alpha_mp`, `pm`, `mp` (the expressions use only
`alpha_p`, `alpha_m`, `pm`, `mp`; the sliced pair is bound but unused, as in the
source). -/
def template_cylinder_ns (alpha_p alpha_m alpha_pm alpha_mp : ℚ) (pm mp : ℤ)
    (rp : ℚ) (n : ℤ) (g nu : ℚ) : ℚ × ℚ × ℚ × ℚ :=
  let A := (((((-(1/8)) * ((((((((alpha_m ^ 2 - alpha_p ^ 2) * (n : ℚ)) - (((n : ℚ) + 1) * (pm : ℚ))) + (1 / alpha_m ^ ((2 * n) : ℤ))) - (1 / alpha_p ^ ((2 * n) : ℤ))) * ((n : ℚ) - 1)) + (((alpha_m ^ 2 / alpha_p ^ ((2 * n) : ℤ)) - (alpha_p ^ 2 / alpha_m ^ ((2 * n) : ℤ))) * (n : ℚ))) + ((((n : ℚ) ^ 2 * (alpha_m / alpha_p) ^ ((2 * mp) : ℤ)) - (alpha_m / alpha_p) ^ (((2 * n) * pm) : ℤ)) * (pm : ℚ)))) * g) * rp ^ (((-n) + 2) : ℤ)) / (((((n : ℚ) ^ 2 * ((alpha_m / alpha_p) - (alpha_p / alpha_m)) ^ 2) - ((alpha_m / alpha_p) ^ (n : ℤ) - (1 / (alpha_m / alpha_p) ^ (n : ℤ))) ^ 2) * ((n : ℚ) - 1)) * nu))
  let B := (((((-(1/8)) * ((((((((alpha_m ^ 2 - alpha_p ^ 2) * (n : ℚ)) - (((n : ℚ) - 1) * (pm : ℚ))) - alpha_m ^ ((2 * n) : ℤ)) + alpha_p ^ ((2 * n) : ℤ)) * ((n : ℚ) + 1)) - (((alpha_m ^ 2 * alpha_p ^ ((2 * n) : ℤ)) - (alpha_m ^ ((2 * n) : ℤ) * alpha_p ^ 2)) * (n : ℚ))) + ((((n : ℚ) ^ 2 * (alpha_m / alpha_p) ^ ((2 * mp) : ℤ)) - (alpha_m / alpha_p) ^ (((2 * mp) * n) : ℤ)) * (pm : ℚ)))) * g) * rp ^ ((n + 2) : ℤ)) / (((((n : ℚ) ^ 2 * ((alpha_m / alpha_p) - (alpha_p / alpha_m)) ^ 2) - ((alpha_m / alpha_p) ^ (n : ℤ) - (1 / (alpha_m / alpha_p) ^ (n : ℤ))) ^ 2) * ((n : ℚ) + 1)) * nu))
  let C := ((((-(1/8)) * ((((((n : ℚ) ^ 2 * (alpha_m / alpha_p) ^ ((2 * pm) : ℤ)) - (alpha_m / alpha_p) ^ (((2 * n) * pm) : ℤ)) * (mp : ℚ)) - ((((((mp : ℚ) * ((n : ℚ) - 1)) + ((n : ℚ) * ((1 / alpha_m ^ 2) - (1 / alpha_p ^ 2)))) - (1 / alpha_m ^ ((2 * n) : ℤ))) + (1 / alpha_p ^ ((2 * n) : ℤ))) * ((n : ℚ) + 1))) - ((n : ℚ) * ((1 / (alpha_m ^ ((2 * n) : ℤ) * alpha_p ^ 2)) - (1 / (alpha_m ^ 2 * alpha_p ^ ((2 * n) : ℤ))))))) * g) / ((((((n : ℚ) ^ 2 * ((alpha_m / alpha_p) - (alpha_p / alpha_m)) ^ 2) - ((alpha_m / alpha_p) ^ (n : ℤ) - (1 / (alpha_m / alpha_p) ^ (n : ℤ))) ^ 2) * ((n : ℚ) + 1)) * nu) * rp ^ (n : ℤ)))
  let D := (((((-(1/8)) * ((((((n : ℚ) ^ 2 * (alpha_m / alpha_p) ^ ((2 * pm) : ℤ)) - (alpha_m / alpha_p) ^ (((2 * mp) * n) : ℤ)) * (mp : ℚ)) - ((((((mp : ℚ) * ((n : ℚ) + 1)) + ((n : ℚ) * ((1 / alpha_m ^ 2) - (1 / alpha_p ^ 2)))) + alpha_m ^ ((2 * n) : ℤ)) - alpha_p ^ ((2 * n) : ℤ)) * ((n : ℚ) - 1))) + ((n : ℚ) * ((alpha_m ^ ((2 * n) : ℤ) / alpha_p ^ 2) - (alpha_p ^ ((2 * n) : ℤ) / alpha_m ^ 2))))) * g) * rp ^ (n : ℤ)) / (((((n : ℚ) ^ 2 * ((alpha_m / alpha_p) - (alpha_p / alpha_m)) ^ 2) - ((alpha_m / alpha_p) ^ (n : ℤ) - (1 / (alpha_m / alpha_p) ^ (n : ℤ))) ^ 2) * ((n : ℚ) - 1)) * nu))
  let _ := alpha_pm
  let _ := alpha_mp
  (A, B, C, D)

/-- `coefficients_cylinder_delta_ns` from `delta.py`: cylindrical shell, delta forcing,
zero-slip at both boundaries. -/
def coefficients_cylinder_delta_ns (Rp Rm rp : ℚ) (n : ℤ) (g nu : ℚ) (sign : ℤ) :
    Option (ℚ × ℚ × ℚ × ℚ) :=
  (signSelect (Rp / rp) (Rm / rp) sign).map fun al =>
    template_cylinder_ns (Rp / rp) (Rm / rp) al.1 al.2 sign (-sign) rp n g nu

/-- The algebraic template of `coefficients_sphere_delta_fs` in the symbols
`alpha_pm`, `alpha_mp`, `pm`. -/
def template_sphere_fs (alpha_pm alpha_mp : ℚ) (pm : ℤ) (rp : ℚ) (l : ℤ)
    (g nu : ℚ) : ℚ × ℚ × ℚ × ℚ :=
  let A := ((((((-(1/2)) * (alpha_mp ^ (((2 * l) - 1) : ℤ) - 1)) * g) * (pm : ℚ)) * rp ^ (((-l) + 2) : ℤ)) / ((((alpha_mp ^ (((2 * l) - 1) : ℤ) - alpha_pm ^ (((2 * l) - 1) : ℤ)) * ((2 * (l : ℚ)) + 1)) * ((2 * (l : ℚ)) - 1)) * nu))
  let B := ((((((-(1/2)) * (alpha_mp ^ ((((-2) * l) - 3) : ℤ) - 1)) * g) * (pm : ℚ)) * rp ^ ((l + 3) : ℤ)) / ((((alpha_mp ^ ((((-2) * l) - 3) : ℤ) - alpha_pm ^ ((((-2) * l) - 3) : ℤ)) * ((2 * (l : ℚ)) + 3)) * ((2 * (l : ℚ)) + 1)) * nu))
  let C := (((((1/2) * (alpha_mp ^ (((2 * l) + 3) : ℤ) - 1)) * g) * (pm : ℚ)) / (((((alpha_mp ^ (((2 * l) + 3) : ℤ) - alpha_pm ^ (((2 * l) + 3) : ℤ)) * ((2 * (l : ℚ)) + 3)) * ((2 * (l : ℚ)) + 1)) * nu) * rp ^ (l : ℤ)))
  let D := ((((((1/2) * (alpha_mp ^ ((((-2) * l) + 1) : ℤ) - 1)) * g) * (pm : ℚ)) * rp ^ ((l + 1) : ℤ)) / ((((alpha_mp ^ ((((-2) * l) + 1) : ℤ) - alpha_pm ^ ((((-2) * l) + 1) : ℤ)) * ((2 * (l : ℚ)) + 1)) * ((2 * (l : ℚ)) - 1)) * nu))
  (A, B, C, D)

/-- `coefficients_sphere_delta_fs` from `delta.py`: spherical shell, delta forcing,
free-slip at both boundaries. -/
def coefficients_sphere_delta_fs (Rp Rm rp : ℚ) (l : ℤ) (g nu : ℚ) (sign : ℤ) :
    Option (ℚ × ℚ × ℚ × ℚ) :=
  (signSelect (Rp / rp) (Rm / rp) sign).map fun al =>
    template_sphere_fs al.1 al.2 sign rp l g nu

/-- The algebraic template of `coefficients_sphere_delta_ns` in the symbols
`alpha_p`, `alpha_m`, `alpha_pm`, `alpha_mp`, `pm`, `mp` (the sliced pair is bound
but unused, as in the source). -/
def template_sphere_ns (alpha_p alpha_m alpha_pm alpha_mp : ℚ) (pm mp : ℤ)
    (rp : ℚ) (l : ℤ) (g nu : ℚ) : ℚ × ℚ × ℚ × ℚ :=
  let A := (((((-(1/2)) * ((((((alpha_m ^ 2 - alpha_p ^ 2) - (((((2 * (l : ℚ)) + 1) * (mp : ℚ)) * (alpha_m / alpha_p) ^ ((2 * mp) : ℤ)) / ((2 * (l : ℚ)) - 1))) - ((((2 * (l : ℚ)) + 3) * (pm : ℚ)) / ((2 * (l : ℚ)) + 1))) + ((2 * (alpha_m ^ ((((-2) * l) - 1) : ℤ) - alpha_p ^ ((((-2) * l) - 1) : ℤ))) / ((2 * (l : ℚ)) + 1))) + ((2 * ((alpha_m ^ 2 * alpha_p ^ ((((-2) * l) - 1) : ℤ)) - (alpha_m ^ ((((-2) * l) - 1) : ℤ) * alpha_p ^ 2))) / ((2 * (l : ℚ)) - 1))) - (((4 * (pm : ℚ)) * (alpha_m / alpha_p) ^ ((((2 * l) + 1) * pm) : ℤ)) / (((2 * (l : ℚ)) + 1) * ((2 * (l : ℚ)) - 1))))) * g) * rp ^ (((-l) + 2) : ℤ)) / (((((((2 * (l : ℚ)) + 1) ^ 2 * ((alpha_m ^ 2 / alpha_p ^ 2) + (alpha_p ^ 2 / alpha_m ^ 2))) - ((2 * ((2 * (l : ℚ)) + 3)) * ((2 * (l : ℚ)) - 1))) - (4 * (alpha_m / alpha_p) ^ (((2 * l) + 1) : ℤ))) - (4 * (alpha_m / alpha_p) ^ ((((-2) * l) - 1) : ℤ))) * nu))
  let B := (((((-(1/2)) * ((((((alpha_m ^ 2 - alpha_p ^ 2) - (((((2 * (l : ℚ)) + 1) * (mp : ℚ)) * (alpha_m / alpha_p) ^ ((2 * mp) : ℤ)) / ((2 * (l : ℚ)) + 3))) - ((((2 * (l : ℚ)) - 1) * (pm : ℚ)) / ((2 * (l : ℚ)) + 1))) - ((2 * ((alpha_m ^ 2 * alpha_p ^ (((2 * l) + 1) : ℤ)) - (alpha_m ^ (((2 * l) + 1) : ℤ) * alpha_p ^ 2))) / ((2 * (l : ℚ)) + 3))) - ((2 * (alpha_m ^ (((2 * l) + 1) : ℤ) - alpha_p ^ (((2 * l) + 1) : ℤ))) / ((2 * (l : ℚ)) + 1))) - (((4 * (pm : ℚ)) * (alpha_m / alpha_p) ^ ((((2 * l) + 1) * mp) : ℤ)) / (((2 * (l : ℚ)) + 3) * ((2 * (l : ℚ)) + 1))))) * g) * rp ^ ((l + 3) : ℤ)) / (((((((2 * (l : ℚ)) + 1) ^ 2 * ((alpha_m ^ 2 / alpha_p ^ 2) + (alpha_p ^ 2 / alpha_m ^ 2))) - ((2 * ((2 * (l : ℚ)) + 3)) * ((2 * (l : ℚ)) - 1))) - (4 * (alpha_m / alpha_p) ^ (((2 * l) + 1) : ℤ))) - (4 * (alpha_m / alpha_p) ^ ((((-2) * l) - 1) : ℤ))) * nu))
  let C := ((((1/2) * (((((((((((2 * (l : ℚ)) + 1) * (pm : ℚ)) * (alpha_m / alpha_p) ^ ((2 * pm) : ℤ)) / ((2 * (l : ℚ)) + 3)) + ((((2 * (l : ℚ)) - 1) * (mp : ℚ)) / ((2 * (l : ℚ)) + 1))) - ((2 * (alpha_m ^ ((((-2) * l) - 1) : ℤ) - alpha_p ^ ((((-2) * l) - 1) : ℤ))) / ((2 * (l : ℚ)) + 1))) + (((4 * (mp : ℚ)) * (alpha_m / alpha_p) ^ ((((2 * l) + 1) * pm) : ℤ)) / (((2 * (l : ℚ)) + 3) * ((2 * (l : ℚ)) + 1)))) + ((2 * ((alpha_m ^ ((((-2) * l) - 1) : ℤ) / alpha_p ^ 2) - (alpha_p ^ ((((-2) * l) - 1) : ℤ) / alpha_m ^ 2))) / ((2 * (l : ℚ)) + 3))) + (1 / alpha_m ^ 2)) - (1 / alpha_p ^ 2))) * g) / ((((((((2 * (l : ℚ)) + 1) ^ 2 * ((alpha_m ^ 2 / alpha_p ^ 2) + (alpha_p ^ 2 / alpha_m ^ 2))) - ((2 * ((2 * (l : ℚ)) + 3)) * ((2 * (l : ℚ)) - 1))) - (4 * (alpha_m / alpha_p) ^ (((2 * l) + 1) : ℤ))) - (4 * (alpha_m / alpha_p) ^ ((((-2) * l) - 1) : ℤ))) * nu) * rp ^ (l : ℤ)))
  let D := (((((1/2) * (((((((((((2 * (l : ℚ)) + 1) * (pm : ℚ)) * (alpha_m / alpha_p) ^ ((2 * pm) : ℤ)) / ((2 * (l : ℚ)) - 1)) + ((((2 * (l : ℚ)) + 3) * (mp : ℚ)) / ((2 * (l : ℚ)) + 1))) + ((2 * (alpha_m ^ (((2 * l) + 1) : ℤ) - alpha_p ^ (((2 * l) + 1) : ℤ))) / ((2 * (l : ℚ)) + 1))) + (((4 * (mp : ℚ)) * (alpha_m / alpha_p) ^ ((((2 * l) + 1) * mp) : ℤ)) / (((2 * (l : ℚ)) + 1) * ((2 * (l : ℚ)) - 1)))) - ((2 * ((alpha_m ^ (((2 * l) + 1) : ℤ) / alpha_p ^ 2) - (alpha_p ^ (((2 * l) + 1) : ℤ) / alpha_m ^ 2))) / ((2 * (l : ℚ)) - 1))) + (1 / alpha_m ^ 2)) - (1 / alpha_p ^ 2))) * g) * rp ^ ((l + 1) : ℤ)) / (((((((2 * (l : ℚ)) + 1) ^ 2 * ((alpha_m ^ 2 / alpha_p ^ 2) + (alpha_p ^ 2 / alpha_m ^ 2))) - ((2 * ((2 * (l : ℚ)) + 3)) * ((2 * (l : ℚ)) - 1))) - (4 * (alpha_m / alpha_p) ^ (((2 * l) + 1) : ℤ))) - (4 * (alpha_m / alpha_p) ^ ((((-2) * l) - 1) : ℤ))) * nu))
  let _ := alpha_pm
  let _ := alpha_mp
  (A, B, C, D)

/-- `coefficients_sphere_delta_ns` from `delta.py`: spherical shell, delta forcing,
zero-slip at both boundaries. -/
def coefficients_sphere_delta_ns (Rp Rm rp : ℚ) (l : ℤ) (g nu : ℚ) (sign : ℤ) :
    Option (ℚ × ℚ × ℚ × ℚ) :=
  (signSelect (Rp / rp) (Rm / rp) sign).map fun al =>
    template_sphere_ns (Rp / rp) (Rm / rp) al.1 al.2 sign (-sign) rp l g nu

/-- The `(Ap, Bp, Cp, Dp)` tuple of `coefficients_cylinder_delta_nsfs` (the branch
returned when `sign > 0`). -/
def cylinder_nsfs_plus (Rp Rm Rd : ℚ) (n : ℤ) (g nu : ℚ) : ℚ × ℚ × ℚ × ℚ :=
  let Ap := ((((((((((-1) / nu) / Rd ^ (((-n) + 2) : ℤ)) / Rd ^ (n : ℤ)) / (((((Rp ^ (((-n) + 2) : ℤ) * Rm ^ (n : ℤ)) * (n : ℚ)) - ((Rm ^ (((-n) + 2) : ℤ) * Rp ^ (n : ℤ)) * (n : ℚ))) - (Rp ^ (((-n) + 2) : ℤ) * Rm ^ (n : ℤ))) + (Rm ^ (((-n) + 2) : ℤ) * Rp ^ (n : ℤ)))) * ((Rd ^ (((-n) + 2) : ℤ) * Rm ^ (n : ℤ)) - (Rm ^ (((-n) + 2) : ℤ) * Rd ^ (n : ℤ)))) * g) * Rd ^ 2) * Rp ^ (((-n) + 2) : ℤ)) / 8)
  let Bp := (((((((((-Rp ^ ((n + 2) : ℤ)) * ((Rm ^ ((-n) : ℤ) * Rd ^ ((n + 2) : ℤ)) - (Rm ^ ((n + 2) : ℤ) * Rd ^ ((-n) : ℤ)))) * g) * Rd ^ 2) / nu) / Rd ^ ((n + 2) : ℤ)) / Rd ^ ((-n) : ℤ)) / (((((Rm ^ ((-n) : ℤ) * Rp ^ ((n + 2) : ℤ)) * (n : ℚ)) - ((Rm ^ ((n + 2) : ℤ) * Rp ^ ((-n) : ℤ)) * (n : ℚ))) + (Rm ^ ((-n) : ℤ) * Rp ^ ((n + 2) : ℤ))) - (Rm ^ ((n + 2) : ℤ) * Rp ^ ((-n) : ℤ)))) / 8)
  let Cp := ((((((((Rp ^ ((-n) : ℤ) * ((Rm ^ ((-n) : ℤ) * Rd ^ ((n + 2) : ℤ)) - (Rm ^ ((n + 2) : ℤ) * Rd ^ ((-n) : ℤ)))) * g) * Rd ^ 2) / nu) / Rd ^ ((n + 2) : ℤ)) / Rd ^ ((-n) : ℤ)) / (((((Rm ^ ((-n) : ℤ) * Rp ^ ((n + 2) : ℤ)) * (n : ℚ)) - ((Rm ^ ((n + 2) : ℤ) * Rp ^ ((-n) : ℤ)) * (n : ℚ))) + (Rm ^ ((-n) : ℤ) * Rp ^ ((n + 2) : ℤ))) - (Rm ^ ((n + 2) : ℤ) * Rp ^ ((-n) : ℤ)))) / 8)
  let Dp := (((((((((1 / nu) / Rd ^ (((-n) + 2) : ℤ)) / Rd ^ (n : ℤ)) / (((((Rp ^ (((-n) + 2) : ℤ) * Rm ^ (n : ℤ)) * (n : ℚ)) - ((Rm ^ (((-n) + 2) : ℤ) * Rp ^ (n : ℤ)) * (n : ℚ))) - (Rp ^ (((-n) + 2) : ℤ) * Rm ^ (n : ℤ))) + (Rm ^ (((-n) + 2) : ℤ) * Rp ^ (n : ℤ)))) * ((Rd ^ (((-n) + 2) : ℤ) * Rm ^ (n : ℤ)) - (Rm ^ (((-n) + 2) : ℤ) * Rd ^ (n : ℤ)))) * Rp ^ (n : ℤ)) * g) * Rd ^ 2) / 8)
  (Ap, Bp, Cp, Dp)

/-- The `(Am, Bm, Cm, Dm)` tuple of `coefficients_cylinder_delta_nsfs` (the branch
returned when `sign ≤ 0`). -/
def cylinder_nsfs_minus (Rp Rm Rd : ℚ) (n : ℤ) (g nu : ℚ) : ℚ × ℚ × ℚ × ℚ :=
  let Am := ((((((((((Rp ^ (((-n) + 2) : ℤ) * Rd ^ (n : ℤ)) - (Rd ^ (((-n) + 2) : ℤ) * Rp ^ (n : ℤ))) / nu) / Rd ^ (((-n) + 2) : ℤ)) / Rd ^ (n : ℤ)) / (((((Rp ^ (((-n) + 2) : ℤ) * Rm ^ (n : ℤ)) * (n : ℚ)) - ((Rm ^ (((-n) + 2) : ℤ) * Rp ^ (n : ℤ)) * (n : ℚ))) - (Rp ^ (((-n) + 2) : ℤ) * Rm ^ (n : ℤ))) + (Rm ^ (((-n) + 2) : ℤ) * Rp ^ (n : ℤ)))) * g) * Rd ^ 2) * Rm ^ (((-n) + 2) : ℤ)) / 8)
  let Bm := (((((((((-Rm ^ ((n + 2) : ℤ)) * ((Rp ^ ((-n) : ℤ) * Rd ^ ((n + 2) : ℤ)) - (Rp ^ ((n + 2) : ℤ) * Rd ^ ((-n) : ℤ)))) * g) * Rd ^ 2) / nu) / Rd ^ ((n + 2) : ℤ)) / Rd ^ ((-n) : ℤ)) / (((((Rm ^ ((-n) : ℤ) * Rp ^ ((n + 2) : ℤ)) * (n : ℚ)) - ((Rm ^ ((n + 2) : ℤ) * Rp ^ ((-n) : ℤ)) * (n : ℚ))) + (Rm ^ ((-n) : ℤ) * Rp ^ ((n + 2) : ℤ))) - (Rm ^ ((n + 2) : ℤ) * Rp ^ ((-n) : ℤ)))) / 8)
  let Cm := ((((((((((Rp ^ ((-n) : ℤ) * Rd ^ ((n + 2) : ℤ)) - (Rp ^ ((n + 2) : ℤ) * Rd ^ ((-n) : ℤ))) * Rm ^ ((-n) : ℤ)) * g) * Rd ^ 2) / nu) / Rd ^ ((n + 2) : ℤ)) / Rd ^ ((-n) : ℤ)) / (((((Rm ^ ((-n) : ℤ) * Rp ^ ((n + 2) : ℤ)) * (n : ℚ)) - ((Rm ^ ((n + 2) : ℤ) * Rp ^ ((-n) : ℤ)) * (n : ℚ))) + (Rm ^ ((-n) : ℤ) * Rp ^ ((n + 2) : ℤ))) - (Rm ^ ((n + 2) : ℤ) * Rp ^ ((-n) : ℤ)))) / 8)
  let Dm := (((((((((-Rm ^ (n : ℤ)) * ((Rp ^ (((-n) + 2) : ℤ) * Rd ^ (n : ℤ)) - (Rd ^ (((-n) + 2) : ℤ) * Rp ^ (n : ℤ)))) / nu) / Rd ^ (((-n) + 2) : ℤ)) / Rd ^ (n : ℤ)) / (((((Rp ^ (((-n) + 2) : ℤ) * Rm ^ (n : ℤ)) * (n : ℚ)) - ((Rm ^ (((-n) + 2) : ℤ) * Rp ^ (n : ℤ)) * (n : ℚ))) - (Rp ^ (((-n) + 2) : ℤ) * Rm ^ (n : ℤ))) + (Rm ^ (((-n) + 2) : ℤ) * Rp ^ (n : ℤ)))) * g) * Rd ^ 2) / 8)
  (Am, Bm, Cm, Dm)

/-- `coefficients_cylinder_delta_nsfs` from `delta.py`: cylindrical shell, delta
forcing, zero-slip at one boundary and free-slip at the other; branches on
`if sign > 0` (not on `sign = ±1`). -/
def coefficients_cylinder_delta_nsfs (Rp Rm Rd : ℚ) (n : ℤ) (g nu : ℚ) (sign : ℤ) :
    ℚ × ℚ × ℚ × ℚ :=
  if 0 < sign then cylinder_nsfs_plus Rp Rm Rd n g nu
  else cylinder_nsfs_minus Rp Rm Rd n g nu

/-- The `(Ap, Bp, Cp, Dp)` tuple of `coefficients_sphere_delta_nsfs` (the branch
returned when `sign > 0`). -/
def sphere_nsfs_plus (Rp Rm Rd : ℚ) (l : ℤ) (g nu : ℚ) : ℚ × ℚ × ℚ × ℚ :=
  let Ap := ((((((((((-Rd ^ 2) * g) * (((((((((((((((((2 * Rm ^ (l : ℤ)) * Rm ^ (((-l) - 1) : ℤ)) * Rp ^ ((l + 2) : ℤ)) * Rp ^ (((-l) + 1) : ℤ)) * Rd ^ (((-l) - 1) : ℤ)) * Rd ^ ((l + 2) : ℤ)) * Rd ^ (((-l) + 1) : ℤ)) * (l : ℚ)) + ((((((((2 * Rm ^ (((-l) - 1) : ℤ)) * Rm ^ (((-l) + 1) : ℤ)) * Rp ^ (((-l) - 1) : ℤ)) * Rp ^ ((l + 2) : ℤ)) * Rd ^ (l : ℤ)) * Rd ^ ((l + 2) : ℤ)) * Rd ^ (((-l) + 1) : ℤ)) * (l : ℚ))) - ((((((((2 * Rm ^ (((-l) - 1) : ℤ)) * Rm ^ (((-l) + 1) : ℤ)) * Rp ^ ((l + 2) : ℤ)) * Rp ^ (((-l) + 1) : ℤ)) * Rd ^ (l : ℤ)) * Rd ^ (((-l) - 1) : ℤ)) * Rd ^ ((l + 2) : ℤ)) * (l : ℚ))) - ((((((((2 * Rm ^ ((l + 2) : ℤ)) * Rm ^ (((-l) + 1) : ℤ)) * Rp ^ (((-l) - 1) : ℤ)) * Rp ^ ((l + 2) : ℤ)) * Rd ^ (l : ℤ)) * Rd ^ (((-l) - 1) : ℤ)) * Rd ^ (((-l) + 1) : ℤ)) * (l : ℚ))) + ((((((Rm ^ (l : ℤ) * Rm ^ (((-l) - 1) : ℤ)) * Rp ^ ((l + 2) : ℤ)) * Rp ^ (((-l) + 1) : ℤ)) * Rd ^ (((-l) - 1) : ℤ)) * Rd ^ ((l + 2) : ℤ)) * Rd ^ (((-l) + 1) : ℤ))) + (((((((2 * Rm ^ (l : ℤ)) * Rm ^ ((l + 2) : ℤ)) * Rp ^ (((-l) - 1) : ℤ)) * Rp ^ (((-l) + 1) : ℤ)) * Rd ^ (((-l) - 1) : ℤ)) * Rd ^ ((l + 2) : ℤ)) * Rd ^ (((-l) + 1) : ℤ))) - ((((((Rm ^ (((-l) - 1) : ℤ) * Rm ^ (((-l) + 1) : ℤ)) * Rp ^ (((-l) - 1) : ℤ)) * Rp ^ ((l + 2) : ℤ)) * Rd ^ (l : ℤ)) * Rd ^ ((l + 2) : ℤ)) * Rd ^ (((-l) + 1) : ℤ))) - ((((((Rm ^ (((-l) - 1) : ℤ) * Rm ^ (((-l) + 1) : ℤ)) * Rp ^ ((l + 2) : ℤ)) * Rp ^ (((-l) + 1) : ℤ)) * Rd ^ (l : ℤ)) * Rd ^ (((-l) - 1) : ℤ)) * Rd ^ ((l + 2) : ℤ))) + ((((((Rm ^ ((l + 2) : ℤ) * Rm ^ (((-l) + 1) : ℤ)) * Rp ^ (((-l) - 1) : ℤ)) * Rp ^ ((l + 2) : ℤ)) * Rd ^ (l : ℤ)) * Rd ^ (((-l) - 1) : ℤ)) * Rd ^ (((-l) + 1) : ℤ))) - (((((((2 * Rm ^ ((l + 2) : ℤ)) * Rm ^ (((-l) + 1) : ℤ)) * Rp ^ (((-l) - 1) : ℤ)) * Rp ^ (((-l) + 1) : ℤ)) * Rd ^ (l : ℤ)) * Rd ^ (((-l) - 1) : ℤ)) * Rd ^ ((l + 2) : ℤ)))) / ((((((((((((((((8 * Rm ^ (l : ℤ)) * Rm ^ (((-l) - 1) : ℤ)) * Rp ^ ((l + 2) : ℤ)) * Rp ^ (((-l) + 1) : ℤ)) * (l : ℚ) ^ 3) - (((((8 * Rm ^ ((l + 2) : ℤ)) * Rm ^ (((-l) + 1) : ℤ)) * Rp ^ (l : ℤ)) * Rp ^ (((-l) - 1) : ℤ)) * (l : ℚ) ^ 3)) + (((((4 * Rm ^ (l : ℤ)) * Rm ^ (((-l) - 1) : ℤ)) * Rp ^ ((l + 2) : ℤ)) * Rp ^ (((-l) + 1) : ℤ)) * (l : ℚ) ^ 2)) + (((((8 * Rm ^ (l : ℤ)) * Rm ^ ((l + 2) : ℤ)) * Rp ^ (((-l) - 1) : ℤ)) * Rp ^ (((-l) + 1) : ℤ)) * (l : ℚ) ^ 2)) - (((((8 * Rm ^ (((-l) - 1) : ℤ)) * Rm ^ (((-l) + 1) : ℤ)) * Rp ^ (l : ℤ)) * Rp ^ ((l + 2) : ℤ)) * (l : ℚ) ^ 2)) - (((((4 * Rm ^ ((l + 2) : ℤ)) * Rm ^ (((-l) + 1) : ℤ)) * Rp ^ (l : ℤ)) * Rp ^ (((-l) - 1) : ℤ)) * (l : ℚ) ^ 2)) - (((((2 * Rm ^ (l : ℤ)) * Rm ^ (((-l) - 1) : ℤ)) * Rp ^ ((l + 2) : ℤ)) * Rp ^ (((-l) + 1) : ℤ)) * (l : ℚ))) + (((((2 * Rm ^ ((l + 2) : ℤ)) * Rm ^ (((-l) + 1) : ℤ)) * Rp ^ (l : ℤ)) * Rp ^ (((-l) - 1) : ℤ)) * (l : ℚ))) - (((Rm ^ (l : ℤ) * Rm ^ (((-l) - 1) : ℤ)) * Rp ^ ((l + 2) : ℤ)) * Rp ^ (((-l) + 1) : ℤ))) - ((((2 * Rm ^ (l : ℤ)) * Rm ^ ((l + 2) : ℤ)) * Rp ^ (((-l) - 1) : ℤ)) * Rp ^ (((-l) + 1) : ℤ))) + ((((2 * Rm ^ (((-l) - 1) : ℤ)) * Rm ^ (((-l) + 1) : ℤ)) * Rp ^ (l : ℤ)) * Rp ^ ((l + 2) : ℤ))) + (((Rm ^ ((l + 2) : ℤ) * Rm ^ (((-l) + 1) : ℤ)) * Rp ^ (l : ℤ)) * Rp ^ (((-l) - 1) : ℤ)))) / Rd ^ (((-l) + 1) : ℤ)) / Rd ^ ((l + 2) : ℤ)) / Rd ^ (((-l) - 1) : ℤ)) / Rd ^ (l : ℤ)) / nu) / 2)
  let Bp := (((((((((((-(((((((((((((((((2 * Rm ^ (l : ℤ)) * Rm ^ (((-l) - 1) : ℤ)) * Rp ^ ((l + 2) : ℤ)) * Rp ^ (((-l) + 1) : ℤ)) * Rd ^ (l : ℤ)) * Rd ^ ((l + 2) : ℤ)) * Rd ^ (((-l) + 1) : ℤ)) * (l : ℚ)) + ((((((((2 * Rm ^ (l : ℤ)) * Rm ^ ((l + 2) : ℤ)) * Rp ^ (l : ℤ)) * Rp ^ (((-l) + 1) : ℤ)) * Rd ^ (((-l) - 1) : ℤ)) * Rd ^ ((l + 2) : ℤ)) * Rd ^ (((-l) + 1) : ℤ)) * (l : ℚ))) - ((((((((2 * Rm ^ (l : ℤ)) * Rm ^ ((l + 2) : ℤ)) * Rp ^ ((l + 2) : ℤ)) * Rp ^ (((-l) + 1) : ℤ)) * Rd ^ (l : ℤ)) * Rd ^ (((-l) - 1) : ℤ)) * Rd ^ (((-l) + 1) : ℤ)) * (l : ℚ))) - ((((((((2 * Rm ^ ((l + 2) : ℤ)) * Rm ^ (((-l) + 1) : ℤ)) * Rp ^ (l : ℤ)) * Rp ^ (((-l) + 1) : ℤ)) * Rd ^ (l : ℤ)) * Rd ^ (((-l) - 1) : ℤ)) * Rd ^ ((l + 2) : ℤ)) * (l : ℚ))) + ((((((Rm ^ (l : ℤ) * Rm ^ (((-l) - 1) : ℤ)) * Rp ^ ((l + 2) : ℤ)) * Rp ^ (((-l) + 1) : ℤ)) * Rd ^ (l : ℤ)) * Rd ^ ((l + 2) : ℤ)) * Rd ^ (((-l) + 1) : ℤ))) + (((((((3 * Rm ^ (l : ℤ)) * Rm ^ ((l + 2) : ℤ)) * Rp ^ (l : ℤ)) * Rp ^ (((-l) + 1) : ℤ)) * Rd ^ (((-l) - 1) : ℤ)) * Rd ^ ((l + 2) : ℤ)) * Rd ^ (((-l) + 1) : ℤ))) - ((((((Rm ^ (l : ℤ) * Rm ^ ((l + 2) : ℤ)) * Rp ^ ((l + 2) : ℤ)) * Rp ^ (((-l) + 1) : ℤ)) * Rd ^ (l : ℤ)) * Rd ^ (((-l) - 1) : ℤ)) * Rd ^ (((-l) + 1) : ℤ))) - (((((((2 * Rm ^ (((-l) - 1) : ℤ)) * Rm ^ (((-l) + 1) : ℤ)) * Rp ^ (l : ℤ)) * Rp ^ ((l + 2) : ℤ)) * Rd ^ (l : ℤ)) * Rd ^ ((l + 2) : ℤ)) * Rd ^ (((-l) + 1) : ℤ))) + (((((((2 * Rm ^ ((l + 2) : ℤ)) * Rm ^ (((-l) + 1) : ℤ)) * Rp ^ (l : ℤ)) * Rp ^ ((l + 2) : ℤ)) * Rd ^ (l : ℤ)) * Rd ^ (((-l) - 1) : ℤ)) * Rd ^ (((-l) + 1) : ℤ))) - (((((((3 * Rm ^ ((l + 2) : ℤ)) * Rm ^ (((-l) + 1) : ℤ)) * Rp ^ (l : ℤ)) * Rp ^ (((-l) + 1) : ℤ)) * Rd ^ (l : ℤ)) * Rd ^ (((-l) - 1) : ℤ)) * Rd ^ ((l + 2) : ℤ)))) / Rd ^ (l : ℤ)) * g) * Rd ^ 2) / nu) / Rd ^ (((-l) - 1) : ℤ)) / Rd ^ ((l + 2) : ℤ)) / Rd ^ (((-l) + 1) : ℤ)) / ((((((((((((((4 * Rm ^ (l : ℤ)) * Rm ^ (((-l) - 1) : ℤ)) * Rp ^ ((l + 2) : ℤ)) * Rp ^ (((-l) + 1) : ℤ)) * (l : ℚ) ^ 2) - (((((4 * Rm ^ ((l + 2) : ℤ)) * Rm ^ (((-l) + 1) : ℤ)) * Rp ^ (l : ℤ)) * Rp ^ (((-l) - 1) : ℤ)) * (l : ℚ) ^ 2)) + (((((4 * Rm ^ (l : ℤ)) * Rm ^ (((-l) - 1) : ℤ)) * Rp ^ ((l + 2) : ℤ)) * Rp ^ (((-l) + 1) : ℤ)) * (l : ℚ))) + (((((4 * Rm ^ (l : ℤ)) * Rm ^ ((l + 2) : ℤ)) * Rp ^ (((-l) - 1) : ℤ)) * Rp ^ (((-l) + 1) : ℤ)) * (l : ℚ))) - (((((4 * Rm ^ (((-l) - 1) : ℤ)) * Rm ^ (((-l) + 1) : ℤ)) * Rp ^ (l : ℤ)) * Rp ^ ((l + 2) : ℤ)) * (l : ℚ))) - (((((4 * Rm ^ ((l + 2) : ℤ)) * Rm ^ (((-l) + 1) : ℤ)) * Rp ^ (l : ℤ)) * Rp ^ (((-l) - 1) : ℤ)) * (l : ℚ))) + (((Rm ^ (l : ℤ) * Rm ^ (((-l) - 1) : ℤ)) * Rp ^ ((l + 2) : ℤ)) * Rp ^ (((-l) + 1) : ℤ))) + ((((2 * Rm ^ (l : ℤ)) * Rm ^ ((l + 2) : ℤ)) * Rp ^ (((-l) - 1) : ℤ)) * Rp ^ (((-l) + 1) : ℤ))) - ((((2 * Rm ^ (((-l) - 1) : ℤ)) * Rm ^ (((-l) + 1) : ℤ)) * Rp ^ (l : ℤ)) * Rp ^ ((l + 2) : ℤ))) - (((Rm ^ ((l + 2) : ℤ) * Rm ^ (((-l) + 1) : ℤ)) * Rp ^ (l : ℤ)) * Rp ^ (((-l) - 1) : ℤ)))) / (3 + (2 * (l : ℚ)))) / 2)
  let Cp := ((((((((((Rd ^ 2 * g) * (((((((((((((((((2 * Rm ^ (l : ℤ)) * Rm ^ (((-l) - 1) : ℤ)) * Rp ^ (l : ℤ)) * Rp ^ (((-l) + 1) : ℤ)) * Rd ^ (((-l) - 1) : ℤ)) * Rd ^ ((l + 2) : ℤ)) * Rd ^ (((-l) + 1) : ℤ)) * (l : ℚ)) + ((((((((2 * Rm ^ (((-l) - 1) : ℤ)) * Rm ^ (((-l) + 1) : ℤ)) * Rp ^ (l : ℤ)) * Rp ^ (((-l) - 1) : ℤ)) * Rd ^ (l : ℤ)) * Rd ^ ((l + 2) : ℤ)) * Rd ^ (((-l) + 1) : ℤ)) * (l : ℚ))) - ((((((((2 * Rm ^ (((-l) - 1) : ℤ)) * Rm ^ (((-l) + 1) : ℤ)) * Rp ^ (l : ℤ)) * Rp ^ (((-l) + 1) : ℤ)) * Rd ^ (l : ℤ)) * Rd ^ (((-l) - 1) : ℤ)) * Rd ^ ((l + 2) : ℤ)) * (l : ℚ))) - ((((((((2 * Rm ^ ((l + 2) : ℤ)) * Rm ^ (((-l) + 1) : ℤ)) * Rp ^ (l : ℤ)) * Rp ^ (((-l) - 1) : ℤ)) * Rd ^ (l : ℤ)) * Rd ^ (((-l) - 1) : ℤ)) * Rd ^ (((-l) + 1) : ℤ)) * (l : ℚ))) + (((((((3 * Rm ^ (l : ℤ)) * Rm ^ (((-l) - 1) : ℤ)) * Rp ^ (l : ℤ)) * Rp ^ (((-l) + 1) : ℤ)) * Rd ^ (((-l) - 1) : ℤ)) * Rd ^ ((l + 2) : ℤ)) * Rd ^ (((-l) + 1) : ℤ))) - (((((((2 * Rm ^ (l : ℤ)) * Rm ^ (((-l) - 1) : ℤ)) * Rp ^ (((-l) - 1) : ℤ)) * Rp ^ (((-l) + 1) : ℤ)) * Rd ^ (l : ℤ)) * Rd ^ ((l + 2) : ℤ)) * Rd ^ (((-l) + 1) : ℤ))) + (((((((2 * Rm ^ (l : ℤ)) * Rm ^ ((l + 2) : ℤ)) * Rp ^ (((-l) - 1) : ℤ)) * Rp ^ (((-l) + 1) : ℤ)) * Rd ^ (l : ℤ)) * Rd ^ (((-l) - 1) : ℤ)) * Rd ^ (((-l) + 1) : ℤ))) + ((((((Rm ^ (((-l) - 1) : ℤ) * Rm ^ (((-l) + 1) : ℤ)) * Rp ^ (l : ℤ)) * Rp ^ (((-l) - 1) : ℤ)) * Rd ^ (l : ℤ)) * Rd ^ ((l + 2) : ℤ)) * Rd ^ (((-l) + 1) : ℤ))) - (((((((3 * Rm ^ (((-l) - 1) : ℤ)) * Rm ^ (((-l) + 1) : ℤ)) * Rp ^ (l : ℤ)) * Rp ^ (((-l) + 1) : ℤ)) * Rd ^ (l : ℤ)) * Rd ^ (((-l) - 1) : ℤ)) * Rd ^ ((l + 2) : ℤ))) - ((((((Rm ^ ((l + 2) : ℤ) * Rm ^ (((-l) + 1) : ℤ)) * Rp ^ (l : ℤ)) * Rp ^ (((-l) - 1) : ℤ)) * Rd ^ (l : ℤ)) * Rd ^ (((-l) - 1) : ℤ)) * Rd ^ (((-l) + 1) : ℤ)))) / Rd ^ (l : ℤ)) / nu) / Rd ^ (((-l) - 1) : ℤ)) / Rd ^ ((l + 2) : ℤ)) / Rd ^ (((-l) + 1) : ℤ)) / ((((((((((((((4 * Rm ^ (l : ℤ)) * Rm ^ (((-l) - 1) : ℤ)) * Rp ^ ((l + 2) : ℤ)) * Rp ^ (((-l) + 1) : ℤ)) * (l : ℚ) ^ 2) - (((((4 * Rm ^ ((l + 2) : ℤ)) * Rm ^ (((-l) + 1) : ℤ)) * Rp ^ (l : ℤ)) * Rp ^ (((-l) - 1) : ℤ)) * (l : ℚ) ^ 2)) + (((((4 * Rm ^ (l : ℤ)) * Rm ^ (((-l) - 1) : ℤ)) * Rp ^ ((l + 2) : ℤ)) * Rp ^ (((-l) + 1) : ℤ)) * (l : ℚ))) + (((((4 * Rm ^ (l : ℤ)) * Rm ^ ((l + 2) : ℤ)) * Rp ^ (((-l) - 1) : ℤ)) * Rp ^ (((-l) + 1) : ℤ)) * (l : ℚ))) - (((((4 * Rm ^ (((-l) - 1) : ℤ)) * Rm ^ (((-l) + 1) : ℤ)) * Rp ^ (l : ℤ)) * Rp ^ ((l + 2) : ℤ)) * (l : ℚ))) - (((((4 * Rm ^ ((l + 2) : ℤ)) * Rm ^ (((-l) + 1) : ℤ)) * Rp ^ (l : ℤ)) * Rp ^ (((-l) - 1) : ℤ)) * (l : ℚ))) + (((Rm ^ (l : ℤ) * Rm ^ (((-l) - 1) : ℤ)) * Rp ^ ((l + 2) : ℤ)) * Rp ^ (((-l) + 1) : ℤ))) + ((((2 * Rm ^ (l : ℤ)) * Rm ^ ((l + 2) : ℤ)) * Rp ^ (((-l) - 1) : ℤ)) * Rp ^ (((-l) + 1) : ℤ))) - ((((2 * Rm ^ (((-l) - 1) : ℤ)) * Rm ^ (((-l) + 1) : ℤ)) * Rp ^ (l : ℤ)) * Rp ^ ((l + 2) : ℤ))) - (((Rm ^ ((l + 2) : ℤ) * Rm ^ (((-l) + 1) : ℤ)) * Rp ^ (l : ℤ)) * Rp ^ (((-l) - 1) : ℤ)))) / (3 + (2 * (l : ℚ)))) / 2)
  let Dp := ((((((((((((((((((((((((((2 * Rm ^ (l : ℤ)) * Rm ^ (((-l) - 1) : ℤ)) * Rp ^ (((-l) - 1) : ℤ)) * Rp ^ ((l + 2) : ℤ)) * Rd ^ (l : ℤ)) * Rd ^ ((l + 2) : ℤ)) * Rd ^ (((-l) + 1) : ℤ)) * (l : ℚ)) + ((((((((2 * Rm ^ (l : ℤ)) * Rm ^ ((l + 2) : ℤ)) * Rp ^ (l : ℤ)) * Rp ^ (((-l) - 1) : ℤ)) * Rd ^ (((-l) - 1) : ℤ)) * Rd ^ ((l + 2) : ℤ)) * Rd ^ (((-l) + 1) : ℤ)) * (l : ℚ))) - ((((((((2 * Rm ^ (l : ℤ)) * Rm ^ ((l + 2) : ℤ)) * Rp ^ (((-l) - 1) : ℤ)) * Rp ^ ((l + 2) : ℤ)) * Rd ^ (l : ℤ)) * Rd ^ (((-l) - 1) : ℤ)) * Rd ^ (((-l) + 1) : ℤ)) * (l : ℚ))) - ((((((((2 * Rm ^ ((l + 2) : ℤ)) * Rm ^ (((-l) + 1) : ℤ)) * Rp ^ (l : ℤ)) * Rp ^ (((-l) - 1) : ℤ)) * Rd ^ (l : ℤ)) * Rd ^ (((-l) - 1) : ℤ)) * Rd ^ ((l + 2) : ℤ)) * (l : ℚ))) + (((((((2 * Rm ^ (l : ℤ)) * Rm ^ (((-l) - 1) : ℤ)) * Rp ^ (l : ℤ)) * Rp ^ ((l + 2) : ℤ)) * Rd ^ (((-l) - 1) : ℤ)) * Rd ^ ((l + 2) : ℤ)) * Rd ^ (((-l) + 1) : ℤ))) - ((((((Rm ^ (l : ℤ) * Rm ^ (((-l) - 1) : ℤ)) * Rp ^ (((-l) - 1) : ℤ)) * Rp ^ ((l + 2) : ℤ)) * Rd ^ (l : ℤ)) * Rd ^ ((l + 2) : ℤ)) * Rd ^ (((-l) + 1) : ℤ))) + ((((((Rm ^ (l : ℤ) * Rm ^ ((l + 2) : ℤ)) * Rp ^ (l : ℤ)) * Rp ^ (((-l) - 1) : ℤ)) * Rd ^ (((-l) - 1) : ℤ)) * Rd ^ ((l + 2) : ℤ)) * Rd ^ (((-l) + 1) : ℤ))) + ((((((Rm ^ (l : ℤ) * Rm ^ ((l + 2) : ℤ)) * Rp ^ (((-l) - 1) : ℤ)) * Rp ^ ((l + 2) : ℤ)) * Rd ^ (l : ℤ)) * Rd ^ (((-l) - 1) : ℤ)) * Rd ^ (((-l) + 1) : ℤ))) - (((((((2 * Rm ^ (((-l) - 1) : ℤ)) * Rm ^ (((-l) + 1) : ℤ)) * Rp ^ (l : ℤ)) * Rp ^ ((l + 2) : ℤ)) * Rd ^ (l : ℤ)) * Rd ^ (((-l) - 1) : ℤ)) * Rd ^ ((l + 2) : ℤ))) - ((((((Rm ^ ((l + 2) : ℤ) * Rm ^ (((-l) + 1) : ℤ)) * Rp ^ (l : ℤ)) * Rp ^ (((-l) - 1) : ℤ)) * Rd ^ (l : ℤ)) * Rd ^ (((-l) - 1) : ℤ)) * Rd ^ ((l + 2) : ℤ))) / ((((((((((((((((8 * Rm ^ (l : ℤ)) * Rm ^ (((-l) - 1) : ℤ)) * Rp ^ ((l + 2) : ℤ)) * Rp ^ (((-l) + 1) : ℤ)) * (l : ℚ) ^ 3) - (((((8 * Rm ^ ((l + 2) : ℤ)) * Rm ^ (((-l) + 1) : ℤ)) * Rp ^ (l : ℤ)) * Rp ^ (((-l) - 1) : ℤ)) * (l : ℚ) ^ 3)) + (((((4 * Rm ^ (l : ℤ)) * Rm ^ (((-l) - 1) : ℤ)) * Rp ^ ((l + 2) : ℤ)) * Rp ^ (((-l) + 1) : ℤ)) * (l : ℚ) ^ 2)) + (((((8 * Rm ^ (l : ℤ)) * Rm ^ ((l + 2) : ℤ)) * Rp ^ (((-l) - 1) : ℤ)) * Rp ^ (((-l) + 1) : ℤ)) * (l : ℚ) ^ 2)) - (((((8 * Rm ^ (((-l) - 1) : ℤ)) * Rm ^ (((-l) + 1) : ℤ)) * Rp ^ (l : ℤ)) * Rp ^ ((l + 2) : ℤ)) * (l : ℚ) ^ 2)) - (((((4 * Rm ^ ((l + 2) : ℤ)) * Rm ^ (((-l) + 1) : ℤ)) * Rp ^ (l : ℤ)) * Rp ^ (((-l) - 1) : ℤ)) * (l : ℚ) ^ 2)) - (((((2 * Rm ^ (l : ℤ)) * Rm ^ (((-l) - 1) : ℤ)) * Rp ^ ((l + 2) : ℤ)) * Rp ^ (((-l) + 1) : ℤ)) * (l : ℚ))) + (((((2 * Rm ^ ((l + 2) : ℤ)) * Rm ^ (((-l) + 1) : ℤ)) * Rp ^ (l : ℤ)) * Rp ^ (((-l) - 1) : ℤ)) * (l : ℚ))) - (((Rm ^ (l : ℤ) * Rm ^ (((-l) - 1) : ℤ)) * Rp ^ ((l + 2) : ℤ)) * Rp ^ (((-l) + 1) : ℤ))) - ((((2 * Rm ^ (l : ℤ)) * Rm ^ ((l + 2) : ℤ)) * Rp ^ (((-l) - 1) : ℤ)) * Rp ^ (((-l) + 1) : ℤ))) + ((((2 * Rm ^ (((-l) - 1) : ℤ)) * Rm ^ (((-l) + 1) : ℤ)) * Rp ^ (l : ℤ)) * Rp ^ ((l + 2) : ℤ))) + (((Rm ^ ((l + 2) : ℤ) * Rm ^ (((-l) + 1) : ℤ)) * Rp ^ (l : ℤ)) * Rp ^ (((-l) - 1) : ℤ)))) / Rd ^ (((-l) + 1) : ℤ)) / Rd ^ ((l + 2) : ℤ)) / Rd ^ (((-l) - 1) : ℤ)) / Rd ^ (l : ℤ)) / nu) * g) * Rd ^ 2) / 2)
  (Ap, Bp, Cp, Dp)

/-- The `(Am, Bm, Cm, Dm)` tuple of `coefficients_sphere_delta_nsfs` (the branch
returned when `sign ≤ 0`). -/
def sphere_nsfs_minus (Rp Rm Rd : ℚ) (l : ℤ) (g nu : ℚ) : ℚ × ℚ × ℚ × ℚ :=
  let Am := ((((((((((((-1) / ((((((((((((((((8 * Rm ^ (l : ℤ)) * Rm ^ (((-l) - 1) : ℤ)) * Rp ^ ((l + 2) : ℤ)) * Rp ^ (((-l) + 1) : ℤ)) * (l : ℚ) ^ 3) - (((((8 * Rm ^ ((l + 2) : ℤ)) * Rm ^ (((-l) + 1) : ℤ)) * Rp ^ (l : ℤ)) * Rp ^ (((-l) - 1) : ℤ)) * (l : ℚ) ^ 3)) + (((((4 * Rm ^ (l : ℤ)) * Rm ^ (((-l) - 1) : ℤ)) * Rp ^ ((l + 2) : ℤ)) * Rp ^ (((-l) + 1) : ℤ)) * (l : ℚ) ^ 2)) + (((((8 * Rm ^ (l : ℤ)) * Rm ^ ((l + 2) : ℤ)) * Rp ^ (((-l) - 1) : ℤ)) * Rp ^ (((-l) + 1) : ℤ)) * (l : ℚ) ^ 2)) - (((((8 * Rm ^ (((-l) - 1) : ℤ)) * Rm ^ (((-l) + 1) : ℤ)) * Rp ^ (l : ℤ)) * Rp ^ ((l + 2) : ℤ)) * (l : ℚ) ^ 2)) - (((((4 * Rm ^ ((l + 2) : ℤ)) * Rm ^ (((-l) + 1) : ℤ)) * Rp ^ (l : ℤ)) * Rp ^ (((-l) - 1) : ℤ)) * (l : ℚ) ^ 2)) - (((((2 * Rm ^ (l : ℤ)) * Rm ^ (((-l) - 1) : ℤ)) * Rp ^ ((l + 2) : ℤ)) * Rp ^ (((-l) + 1) : ℤ)) * (l : ℚ))) + (((((2 * Rm ^ ((l + 2) : ℤ)) * Rm ^ (((-l) + 1) : ℤ)) * Rp ^ (l : ℤ)) * Rp ^ (((-l) - 1) : ℤ)) * (l : ℚ))) - (((Rm ^ (l : ℤ) * Rm ^ (((-l) - 1) : ℤ)) * Rp ^ ((l + 2) : ℤ)) * Rp ^ (((-l) + 1) : ℤ))) - ((((2 * Rm ^ (l : ℤ)) * Rm ^ ((l + 2) : ℤ)) * Rp ^ (((-l) - 1) : ℤ)) * Rp ^ (((-l) + 1) : ℤ))) + ((((2 * Rm ^ (((-l) - 1) : ℤ)) * Rm ^ (((-l) + 1) : ℤ)) * Rp ^ (l : ℤ)) * Rp ^ ((l + 2) : ℤ))) + (((Rm ^ ((l + 2) : ℤ) * Rm ^ (((-l) + 1) : ℤ)) * Rp ^ (l : ℤ)) * Rp ^ (((-l) - 1) : ℤ)))) / Rd ^ (((-l) + 1) : ℤ)) / Rd ^ ((l + 2) : ℤ)) / Rd ^ (((-l) - 1) : ℤ)) / Rd ^ (l : ℤ)) / nu) * ((((((((((((((((2 * Rm ^ (((-l) - 1) : ℤ)) * Rp ^ (((-l) - 1) : ℤ)) * Rp ^ ((l + 2) : ℤ)) * Rd ^ (l : ℤ)) * Rd ^ ((l + 2) : ℤ)) * Rd ^ (((-l) + 1) : ℤ)) * (l : ℚ)) - (((((((2 * Rm ^ (((-l) - 1) : ℤ)) * Rp ^ ((l + 2) : ℤ)) * Rp ^ (((-l) + 1) : ℤ)) * Rd ^ (l : ℤ)) * Rd ^ (((-l) - 1) : ℤ)) * Rd ^ ((l + 2) : ℤ)) * (l : ℚ))) + (((((((2 * Rm ^ ((l + 2) : ℤ)) * Rp ^ (l : ℤ)) * Rp ^ (((-l) - 1) : ℤ)) * Rd ^ (((-l) - 1) : ℤ)) * Rd ^ ((l + 2) : ℤ)) * Rd ^ (((-l) + 1) : ℤ)) * (l : ℚ))) - (((((((2 * Rm ^ ((l + 2) : ℤ)) * Rp ^ (((-l) - 1) : ℤ)) * Rp ^ ((l + 2) : ℤ)) * Rd ^ (l : ℤ)) * Rd ^ (((-l) - 1) : ℤ)) * Rd ^ (((-l) + 1) : ℤ)) * (l : ℚ))) + ((((((2 * Rm ^ (((-l) - 1) : ℤ)) * Rp ^ (l : ℤ)) * Rp ^ ((l + 2) : ℤ)) * Rd ^ (((-l) - 1) : ℤ)) * Rd ^ ((l + 2) : ℤ)) * Rd ^ (((-l) + 1) : ℤ))) - (((((Rm ^ (((-l) - 1) : ℤ) * Rp ^ (((-l) - 1) : ℤ)) * Rp ^ ((l + 2) : ℤ)) * Rd ^ (l : ℤ)) * Rd ^ ((l + 2) : ℤ)) * Rd ^ (((-l) + 1) : ℤ))) - (((((Rm ^ (((-l) - 1) : ℤ) * Rp ^ ((l + 2) : ℤ)) * Rp ^ (((-l) + 1) : ℤ)) * Rd ^ (l : ℤ)) * Rd ^ (((-l) - 1) : ℤ)) * Rd ^ ((l + 2) : ℤ))) + (((((Rm ^ ((l + 2) : ℤ) * Rp ^ (l : ℤ)) * Rp ^ (((-l) - 1) : ℤ)) * Rd ^ (((-l) - 1) : ℤ)) * Rd ^ ((l + 2) : ℤ)) * Rd ^ (((-l) + 1) : ℤ))) + (((((Rm ^ ((l + 2) : ℤ) * Rp ^ (((-l) - 1) : ℤ)) * Rp ^ ((l + 2) : ℤ)) * Rd ^ (l : ℤ)) * Rd ^ (((-l) - 1) : ℤ)) * Rd ^ (((-l) + 1) : ℤ))) - ((((((2 * Rm ^ ((l + 2) : ℤ)) * Rp ^ (((-l) - 1) : ℤ)) * Rp ^ (((-l) + 1) : ℤ)) * Rd ^ (l : ℤ)) * Rd ^ (((-l) - 1) : ℤ)) * Rd ^ ((l + 2) : ℤ)))) * g) * Rd ^ 2) * Rm ^ (((-l) + 1) : ℤ)) / 2)
  let Bm := ((((((((((((-Rm ^ ((l + 2) : ℤ)) * ((((((((((((((((2 * Rm ^ (l : ℤ)) * Rp ^ (l : ℤ)) * Rp ^ (((-l) + 1) : ℤ)) * Rd ^ (((-l) - 1) : ℤ)) * Rd ^ ((l + 2) : ℤ)) * Rd ^ (((-l) + 1) : ℤ)) * (l : ℚ)) - (((((((2 * Rm ^ (l : ℤ)) * Rp ^ ((l + 2) : ℤ)) * Rp ^ (((-l) + 1) : ℤ)) * Rd ^ (l : ℤ)) * Rd ^ (((-l) - 1) : ℤ)) * Rd ^ (((-l) + 1) : ℤ)) * (l : ℚ))) + (((((((2 * Rm ^ (((-l) + 1) : ℤ)) * Rp ^ (l : ℤ)) * Rp ^ (((-l) - 1) : ℤ)) * Rd ^ (l : ℤ)) * Rd ^ ((l + 2) : ℤ)) * Rd ^ (((-l) + 1) : ℤ)) * (l : ℚ))) - (((((((2 * Rm ^ (((-l) + 1) : ℤ)) * Rp ^ (l : ℤ)) * Rp ^ (((-l) + 1) : ℤ)) * Rd ^ (l : ℤ)) * Rd ^ (((-l) - 1) : ℤ)) * Rd ^ ((l + 2) : ℤ)) * (l : ℚ))) + ((((((3 * Rm ^ (l : ℤ)) * Rp ^ (l : ℤ)) * Rp ^ (((-l) + 1) : ℤ)) * Rd ^ (((-l) - 1) : ℤ)) * Rd ^ ((l + 2) : ℤ)) * Rd ^ (((-l) + 1) : ℤ))) - ((((((2 * Rm ^ (l : ℤ)) * Rp ^ (((-l) - 1) : ℤ)) * Rp ^ (((-l) + 1) : ℤ)) * Rd ^ (l : ℤ)) * Rd ^ ((l + 2) : ℤ)) * Rd ^ (((-l) + 1) : ℤ))) - (((((Rm ^ (l : ℤ) * Rp ^ ((l + 2) : ℤ)) * Rp ^ (((-l) + 1) : ℤ)) * Rd ^ (l : ℤ)) * Rd ^ (((-l) - 1) : ℤ)) * Rd ^ (((-l) + 1) : ℤ))) + (((((Rm ^ (((-l) + 1) : ℤ) * Rp ^ (l : ℤ)) * Rp ^ (((-l) - 1) : ℤ)) * Rd ^ (l : ℤ)) * Rd ^ ((l + 2) : ℤ)) * Rd ^ (((-l) + 1) : ℤ))) + ((((((2 * Rm ^ (((-l) + 1) : ℤ)) * Rp ^ (l : ℤ)) * Rp ^ ((l + 2) : ℤ)) * Rd ^ (l : ℤ)) * Rd ^ (((-l) - 1) : ℤ)) * Rd ^ (((-l) + 1) : ℤ))) - ((((((3 * Rm ^ (((-l) + 1) : ℤ)) * Rp ^ (l : ℤ)) * Rp ^ (((-l) + 1) : ℤ)) * Rd ^ (l : ℤ)) * Rd ^ (((-l) - 1) : ℤ)) * Rd ^ ((l + 2) : ℤ)))) * g) * Rd ^ 2) / ((((((((((((((4 * Rm ^ (l : ℤ)) * Rm ^ (((-l) - 1) : ℤ)) * Rp ^ ((l + 2) : ℤ)) * Rp ^ (((-l) + 1) : ℤ)) * (l : ℚ) ^ 2) - (((((4 * Rm ^ ((l + 2) : ℤ)) * Rm ^ (((-l) + 1) : ℤ)) * Rp ^ (l : ℤ)) * Rp ^ (((-l) - 1) : ℤ)) * (l : ℚ) ^ 2)) + (((((4 * Rm ^ (l : ℤ)) * Rm ^ (((-l) - 1) : ℤ)) * Rp ^ ((l + 2) : ℤ)) * Rp ^ (((-l) + 1) : ℤ)) * (l : ℚ))) + (((((4 * Rm ^ (l : ℤ)) * Rm ^ ((l + 2) : ℤ)) * Rp ^ (((-l) - 1) : ℤ)) * Rp ^ (((-l) + 1) : ℤ)) * (l : ℚ))) - (((((4 * Rm ^ (((-l) - 1) : ℤ)) * Rm ^ (((-l) + 1) : ℤ)) * Rp ^ (l : ℤ)) * Rp ^ ((l + 2) : ℤ)) * (l : ℚ))) - (((((4 * Rm ^ ((l + 2) : ℤ)) * Rm ^ (((-l) + 1) : ℤ)) * Rp ^ (l : ℤ)) * Rp ^ (((-l) - 1) : ℤ)) * (l : ℚ))) + (((Rm ^ (l : ℤ) * Rm ^ (((-l) - 1) : ℤ)) * Rp ^ ((l + 2) : ℤ)) * Rp ^ (((-l) + 1) : ℤ))) + ((((2 * Rm ^ (l : ℤ)) * Rm ^ ((l + 2) : ℤ)) * Rp ^ (((-l) - 1) : ℤ)) * Rp ^ (((-l) + 1) : ℤ))) - ((((2 * Rm ^ (((-l) - 1) : ℤ)) * Rm ^ (((-l) + 1) : ℤ)) * Rp ^ (l : ℤ)) * Rp ^ ((l + 2) : ℤ))) - (((Rm ^ ((l + 2) : ℤ) * Rm ^ (((-l) + 1) : ℤ)) * Rp ^ (l : ℤ)) * Rp ^ (((-l) - 1) : ℤ)))) / (3 + (2 * (l : ℚ)))) / Rd ^ (((-l) + 1) : ℤ)) / Rd ^ ((l + 2) : ℤ)) / Rd ^ (((-l) - 1) : ℤ)) / nu) / Rd ^ (l : ℤ)) / 2)
  let Cm := (((((((((((((((((((((((((((2 * Rm ^ (l : ℤ)) * Rp ^ (l : ℤ)) * Rp ^ (((-l) + 1) : ℤ)) * Rd ^ (((-l) - 1) : ℤ)) * Rd ^ ((l + 2) : ℤ)) * Rd ^ (((-l) + 1) : ℤ)) * (l : ℚ)) - (((((((2 * Rm ^ (l : ℤ)) * Rp ^ ((l + 2) : ℤ)) * Rp ^ (((-l) + 1) : ℤ)) * Rd ^ (l : ℤ)) * Rd ^ (((-l) - 1) : ℤ)) * Rd ^ (((-l) + 1) : ℤ)) * (l : ℚ))) + (((((((2 * Rm ^ (((-l) + 1) : ℤ)) * Rp ^ (l : ℤ)) * Rp ^ (((-l) - 1) : ℤ)) * Rd ^ (l : ℤ)) * Rd ^ ((l + 2) : ℤ)) * Rd ^ (((-l) + 1) : ℤ)) * (l : ℚ))) - (((((((2 * Rm ^ (((-l) + 1) : ℤ)) * Rp ^ (l : ℤ)) * Rp ^ (((-l) + 1) : ℤ)) * Rd ^ (l : ℤ)) * Rd ^ (((-l) - 1) : ℤ)) * Rd ^ ((l + 2) : ℤ)) * (l : ℚ))) + ((((((3 * Rm ^ (l : ℤ)) * Rp ^ (l : ℤ)) * Rp ^ (((-l) + 1) : ℤ)) * Rd ^ (((-l) - 1) : ℤ)) * Rd ^ ((l + 2) : ℤ)) * Rd ^ (((-l) + 1) : ℤ))) - ((((((2 * Rm ^ (l : ℤ)) * Rp ^ (((-l) - 1) : ℤ)) * Rp ^ (((-l) + 1) : ℤ)) * Rd ^ (l : ℤ)) * Rd ^ ((l + 2) : ℤ)) * Rd ^ (((-l) + 1) : ℤ))) - (((((Rm ^ (l : ℤ) * Rp ^ ((l + 2) : ℤ)) * Rp ^ (((-l) + 1) : ℤ)) * Rd ^ (l : ℤ)) * Rd ^ (((-l) - 1) : ℤ)) * Rd ^ (((-l) + 1) : ℤ))) + (((((Rm ^ (((-l) + 1) : ℤ) * Rp ^ (l : ℤ)) * Rp ^ (((-l) - 1) : ℤ)) * Rd ^ (l : ℤ)) * Rd ^ ((l + 2) : ℤ)) * Rd ^ (((-l) + 1) : ℤ))) + ((((((2 * Rm ^ (((-l) + 1) : ℤ)) * Rp ^ (l : ℤ)) * Rp ^ ((l + 2) : ℤ)) * Rd ^ (l : ℤ)) * Rd ^ (((-l) - 1) : ℤ)) * Rd ^ (((-l) + 1) : ℤ))) - ((((((3 * Rm ^ (((-l) + 1) : ℤ)) * Rp ^ (l : ℤ)) * Rp ^ (((-l) + 1) : ℤ)) * Rd ^ (l : ℤ)) * Rd ^ (((-l) - 1) : ℤ)) * Rd ^ ((l + 2) : ℤ))) * Rm ^ (((-l) - 1) : ℤ)) * g) * Rd ^ 2) / ((((((((((((((4 * Rm ^ (l : ℤ)) * Rm ^ (((-l) - 1) : ℤ)) * Rp ^ ((l + 2) : ℤ)) * Rp ^ (((-l) + 1) : ℤ)) * (l : ℚ) ^ 2) - (((((4 * Rm ^ ((l + 2) : ℤ)) * Rm ^ (((-l) + 1) : ℤ)) * Rp ^ (l : ℤ)) * Rp ^ (((-l) - 1) : ℤ)) * (l : ℚ) ^ 2)) + (((((4 * Rm ^ (l : ℤ)) * Rm ^ (((-l) - 1) : ℤ)) * Rp ^ ((l + 2) : ℤ)) * Rp ^ (((-l) + 1) : ℤ)) * (l : ℚ))) + (((((4 * Rm ^ (l : ℤ)) * Rm ^ ((l + 2) : ℤ)) * Rp ^ (((-l) - 1) : ℤ)) * Rp ^ (((-l) + 1) : ℤ)) * (l : ℚ))) - (((((4 * Rm ^ (((-l) - 1) : ℤ)) * Rm ^ (((-l) + 1) : ℤ)) * Rp ^ (l : ℤ)) * Rp ^ ((l + 2) : ℤ)) * (l : ℚ))) - (((((4 * Rm ^ ((l + 2) : ℤ)) * Rm ^ (((-l) + 1) : ℤ)) * Rp ^ (l : ℤ)) * Rp ^ (((-l) - 1) : ℤ)) * (l : ℚ))) + (((Rm ^ (l : ℤ) * Rm ^ (((-l) - 1) : ℤ)) * Rp ^ ((l + 2) : ℤ)) * Rp ^ (((-l) + 1) : ℤ))) + ((((2 * Rm ^ (l : ℤ)) * Rm ^ ((l + 2) : ℤ)) * Rp ^ (((-l) - 1) : ℤ)) * Rp ^ (((-l) + 1) : ℤ))) - ((((2 * Rm ^ (((-l) - 1) : ℤ)) * Rm ^ (((-l) + 1) : ℤ)) * Rp ^ (l : ℤ)) * Rp ^ ((l + 2) : ℤ))) - (((Rm ^ ((l + 2) : ℤ) * Rm ^ (((-l) + 1) : ℤ)) * Rp ^ (l : ℤ)) * Rp ^ (((-l) - 1) : ℤ)))) / (3 + (2 * (l : ℚ)))) / Rd ^ (((-l) + 1) : ℤ)) / Rd ^ ((l + 2) : ℤ)) / Rd ^ (((-l) - 1) : ℤ)) / nu) / Rd ^ (l : ℤ)) / 2)
  let Dm := (((((((((((1 / ((((((((((((((((8 * Rm ^ (l : ℤ)) * Rm ^ (((-l) - 1) : ℤ)) * Rp ^ ((l + 2) : ℤ)) * Rp ^ (((-l) + 1) : ℤ)) * (l : ℚ) ^ 3) - (((((8 * Rm ^ ((l + 2) : ℤ)) * Rm ^ (((-l) + 1) : ℤ)) * Rp ^ (l : ℤ)) * Rp ^ (((-l) - 1) : ℤ)) * (l : ℚ) ^ 3)) + (((((4 * Rm ^ (l : ℤ)) * Rm ^ (((-l) - 1) : ℤ)) * Rp ^ ((l + 2) : ℤ)) * Rp ^ (((-l) + 1) : ℤ)) * (l : ℚ) ^ 2)) + (((((8 * Rm ^ (l : ℤ)) * Rm ^ ((l + 2) : ℤ)) * Rp ^ (((-l) - 1) : ℤ)) * Rp ^ (((-l) + 1) : ℤ)) * (l : ℚ) ^ 2)) - (((((8 * Rm ^ (((-l) - 1) : ℤ)) * Rm ^ (((-l) + 1) : ℤ)) * Rp ^ (l : ℤ)) * Rp ^ ((l + 2) : ℤ)) * (l : ℚ) ^ 2)) - (((((4 * Rm ^ ((l + 2) : ℤ)) * Rm ^ (((-l) + 1) : ℤ)) * Rp ^ (l : ℤ)) * Rp ^ (((-l) - 1) : ℤ)) * (l : ℚ) ^ 2)) - (((((2 * Rm ^ (l : ℤ)) * Rm ^ (((-l) - 1) : ℤ)) * Rp ^ ((l + 2) : ℤ)) * Rp ^ (((-l) + 1) : ℤ)) * (l : ℚ))) + (((((2 * Rm ^ ((l + 2) : ℤ)) * Rm ^ (((-l) + 1) : ℤ)) * Rp ^ (l : ℤ)) * Rp ^ (((-l) - 1) : ℤ)) * (l : ℚ))) - (((Rm ^ (l : ℤ) * Rm ^ (((-l) - 1) : ℤ)) * Rp ^ ((l + 2) : ℤ)) * Rp ^ (((-l) + 1) : ℤ))) - ((((2 * Rm ^ (l : ℤ)) * Rm ^ ((l + 2) : ℤ)) * Rp ^ (((-l) - 1) : ℤ)) * Rp ^ (((-l) + 1) : ℤ))) + ((((2 * Rm ^ (((-l) - 1) : ℤ)) * Rm ^ (((-l) + 1) : ℤ)) * Rp ^ (l : ℤ)) * Rp ^ ((l + 2) : ℤ))) + (((Rm ^ ((l + 2) : ℤ) * Rm ^ (((-l) + 1) : ℤ)) * Rp ^ (l : ℤ)) * Rp ^ (((-l) - 1) : ℤ)))) / Rd ^ (((-l) + 1) : ℤ)) / Rd ^ ((l + 2) : ℤ)) / Rd ^ (((-l) - 1) : ℤ)) / Rd ^ (l : ℤ)) / nu) * Rm ^ (l : ℤ)) * ((((((((((((((((2 * Rm ^ (((-l) - 1) : ℤ)) * Rp ^ (((-l) - 1) : ℤ)) * Rp ^ ((l + 2) : ℤ)) * Rd ^ (l : ℤ)) * Rd ^ ((l + 2) : ℤ)) * Rd ^ (((-l) + 1) : ℤ)) * (l : ℚ)) - (((((((2 * Rm ^ (((-l) - 1) : ℤ)) * Rp ^ ((l + 2) : ℤ)) * Rp ^ (((-l) + 1) : ℤ)) * Rd ^ (l : ℤ)) * Rd ^ (((-l) - 1) : ℤ)) * Rd ^ ((l + 2) : ℤ)) * (l : ℚ))) + (((((((2 * Rm ^ ((l + 2) : ℤ)) * Rp ^ (l : ℤ)) * Rp ^ (((-l) - 1) : ℤ)) * Rd ^ (((-l) - 1) : ℤ)) * Rd ^ ((l + 2) : ℤ)) * Rd ^ (((-l) + 1) : ℤ)) * (l : ℚ))) - (((((((2 * Rm ^ ((l + 2) : ℤ)) * Rp ^ (((-l) - 1) : ℤ)) * Rp ^ ((l + 2) : ℤ)) * Rd ^ (l : ℤ)) * Rd ^ (((-l) - 1) : ℤ)) * Rd ^ (((-l) + 1) : ℤ)) * (l : ℚ))) + ((((((2 * Rm ^ (((-l) - 1) : ℤ)) * Rp ^ (l : ℤ)) * Rp ^ ((l + 2) : ℤ)) * Rd ^ (((-l) - 1) : ℤ)) * Rd ^ ((l + 2) : ℤ)) * Rd ^ (((-l) + 1) : ℤ))) - (((((Rm ^ (((-l) - 1) : ℤ) * Rp ^ (((-l) - 1) : ℤ)) * Rp ^ ((l + 2) : ℤ)) * Rd ^ (l : ℤ)) * Rd ^ ((l + 2) : ℤ)) * Rd ^ (((-l) + 1) : ℤ))) - (((((Rm ^ (((-l) - 1) : ℤ) * Rp ^ ((l + 2) : ℤ)) * Rp ^ (((-l) + 1) : ℤ)) * Rd ^ (l : ℤ)) * Rd ^ (((-l) - 1) : ℤ)) * Rd ^ ((l + 2) : ℤ))) + (((((Rm ^ ((l + 2) : ℤ) * Rp ^ (l : ℤ)) * Rp ^ (((-l) - 1) : ℤ)) * Rd ^ (((-l) - 1) : ℤ)) * Rd ^ ((l + 2) : ℤ)) * Rd ^ (((-l) + 1) : ℤ))) + (((((Rm ^ ((l + 2) : ℤ) * Rp ^ (((-l) - 1) : ℤ)) * Rp ^ ((l + 2) : ℤ)) * Rd ^ (l : ℤ)) * Rd ^ (((-l) - 1) : ℤ)) * Rd ^ (((-l) + 1) : ℤ))) - ((((((2 * Rm ^ ((l + 2) : ℤ)) * Rp ^ (((-l) - 1) : ℤ)) * Rp ^ (((-l) + 1) : ℤ)) * Rd ^ (l : ℤ)) * Rd ^ (((-l) - 1) : ℤ)) * Rd ^ ((l + 2) : ℤ)))) * g) * Rd ^ 2) / 2)
  (Am, Bm, Cm, Dm)

/-- `coefficients_sphere_delta_nsfs` from `delta.py`: spherical shell, delta
forcing, mixed boundary conditions; branches on `if sign > 0`. -/
def coefficients_sphere_delta_nsfs (Rp Rm Rd : ℚ) (l : ℤ) (g nu : ℚ) (sign : ℤ) :
    ℚ × ℚ × ℚ × ℚ :=
  if 0 < sign then sphere_nsfs_plus Rp Rm Rd l g nu
  else sphere_nsfs_minus Rp Rm Rd l g nu
/-- The denominator of the `A` and `D` coefficients of
`coefficients_cylinder_delta_fs`: `(alpha_mp**(2*n-2) - alpha_pm**(2*n-2))*(n-1)*nu`. -/
def denom_cylinder_fs_AD (alpha_pm alpha_mp : ℚ) (n : ℤ) (nu : ℚ) : ℚ :=
  ((alpha_mp ^ (((2 * n) - 2) : ℤ) - alpha_pm ^ (((2 * n) - 2) : ℤ)) * ((n : ℚ) - 1)) * nu

/-- The denominator of the `B` and `C` coefficients of
`coefficients_cylinder_delta_fs` (without the extra `rp**n` of `C`):
`(alpha_mp**(2*n+2) - alpha_pm**(2*n+2))*(n+1)*nu`. -/
def denom_cylinder_fs_BC (alpha_pm alpha_mp : ℚ) (n : ℤ) (nu : ℚ) : ℚ :=
  ((alpha_mp ^ (((2 * n) + 2) : ℤ) - alpha_pm ^ (((2 * n) + 2) : ℤ)) * ((n : ℚ) + 1)) * nu

/-- The characteristic factor shared by all four denominators of
`coefficients_cylinder_delta_ns`:
`n**2*(alpha_m/alpha_p - alpha_p/alpha_m)**2 - ((alpha_m/alpha_p)**n - 1/(alpha_m/alpha_p)**n)**2`. -/
def denom_cylinder_ns_char (alpha_p alpha_m : ℚ) (n : ℤ) : ℚ :=
  ((n : ℚ) ^ 2 * ((alpha_m / alpha_p) - (alpha_p / alpha_m)) ^ 2) -
    ((alpha_m / alpha_p) ^ (n : ℤ) - (1 / (alpha_m / alpha_p) ^ (n : ℤ))) ^ 2

/-- The denominator shared by all four coefficients of `coefficients_sphere_delta_ns`
(without the extra `rp**l` of `C`):
`((2*l+1)**2*(alpha_m**2/alpha_p**2 + alpha_p**2/alpha_m**2) - 2*(2*l+3)*(2*l-1)
 - 4*(alpha_m/alpha_p)**(2*l+1) - 4*(alpha_m/alpha_p)**(-2*l-1))*nu`. -/
def denom_sphere_ns (alpha_p alpha_m : ℚ) (l : ℤ) (nu : ℚ) : ℚ :=
  ((((2 * (l : ℚ)) + 1) ^ 2 * ((alpha_m ^ 2 / alpha_p ^ 2) + (alpha_p ^ 2 / alpha_m ^ 2)) -
      2 * ((2 * (l : ℚ)) + 3) * ((2 * (l : ℚ)) - 1) -
      4 * (alpha_m / alpha_p) ^ (((2 * l) + 1) : ℤ) -
      4 * (alpha_m / alpha_p) ^ ((((-2) * l) - 1) : ℤ)) * nu)

/-- Modelled from the spec: the radial profile of the reconstructed 2D solution, a
linear combination of the four biharmonic basis powers `r^n, r^-n, r^(n+2), r^(-n+2)`
listed in spec section 3, with the coefficient-to-basis pairing
`psi(r) = A*r^n + B*r^(-n) + C*r^(n+2) + D*r^(-n+2)` (the pairing the coefficients
of `delta.py` actually satisfy; the reconstruction code itself, `cylindrical.py`,
is not part of the excerpted source). -/
def Psi_cylinder (co : ℚ × ℚ × ℚ × ℚ) (n : ℤ) (r : ℚ) : ℚ :=
  co.1 * r ^ (n : ℤ) + co.2.1 * r ^ ((-n) : ℤ) +
    co.2.2.1 * r ^ ((n + 2) : ℤ) + co.2.2.2 * r ^ (((-n) + 2) : ℤ)

/-- Modelled from the spec: the first derivative (with respect to `r`) of
`Psi_cylinder`, the formal term-by-term derivative of the four basis powers. -/
def dPsi_cylinder (co : ℚ × ℚ × ℚ × ℚ) (n : ℤ) (r : ℚ) : ℚ :=
  co.1 * (n : ℚ) * r ^ ((n - 1) : ℤ) + co.2.1 * (-(n : ℚ)) * r ^ (((-n) - 1) : ℤ) +
    co.2.2.1 * ((n : ℚ) + 2) * r ^ ((n + 1) : ℤ) +
    co.2.2.2 * (-(n : ℚ) + 2) * r ^ (((-n) + 1) : ℤ)

/-- Modelled from the spec: the radial profile with the spec's literal
coefficient-to-basis pairing `psi(r) = A*r^(-n+2) + B*r^(n+2) + C*r^(-n) + D*r^n`
(spec section 3 lists the basis in this order against `(A, B, C, D)`). -/
def Psi_cylinder_specPairing (co : ℚ × ℚ × ℚ × ℚ) (n : ℤ) (r : ℚ) : ℚ :=
  co.1 * r ^ (((-n) + 2) : ℤ) + co.2.1 * r ^ ((n + 2) : ℤ) +
    co.2.2.1 * r ^ ((-n) : ℤ) + co.2.2.2 * r ^ (n : ℤ)

/-- Modelled from the spec: the first derivative of `Psi_cylinder_specPairing`. -/
def dPsi_cylinder_specPairing (co : ℚ × ℚ × ℚ × ℚ) (n : ℤ) (r : ℚ) : ℚ :=
  co.1 * (-(n : ℚ) + 2) * r ^ (((-n) + 1) : ℤ) + co.2.1 * ((n : ℚ) + 2) * r ^ ((n + 1) : ℤ) +
    co.2.2.1 * (-(n : ℚ)) * r ^ (((-n) - 1) : ℤ) + co.2.2.2 * (n : ℚ) * r ^ ((n - 1) : ℤ)

/-- The `__all__` export list of `src/assess/__init__.py`, in source order. -/
def assess_all : List String :=
  ["CylindricalStokesSolutionSmoothFreeSlip", "CylindricalStokesSolutionSmoothZeroSlip",
   "CylindricalStokesSolutionSmoothFreeZeroSlip",
   "CylindricalStokesSolutionDeltaFreeSlip", "CylindricalStokesSolutionDeltaZeroSlip",
   "CylindricalStokesSolutionDeltaFreeZeroSlip",
   "SphericalStokesSolutionSmoothFreeSlip", "SphericalStokesSolutionSmoothZeroSlip",
   "SphericalStokesSolutionSmoothFreeZeroSlip",
   "SphericalStokesSolutionDeltaFreeSlip", "SphericalStokesSolutionDeltaZeroSlip",
   "SphericalStokesSolutionDeltaFreeZeroSlip",
   "Y", "dYdphi", "dYdtheta", "to_spherical", "from_spherical"]

/-- The export surface asserted by the spec: the six
`<Geometry>StokesSolution<Forcing><BoundaryCondition>` names per geometry followed
by the five angular-basis names. -/
def spec_export_surface : List String :=
  ["CylindricalStokesSolutionSmoothFreeSlip", "CylindricalStokesSolutionSmoothZeroSlip",
   "CylindricalStokesSolutionSmoothFreeZeroSlip",
   "CylindricalStokesSolutionDeltaFreeSlip", "CylindricalStokesSolutionDeltaZeroSlip",
   "CylindricalStokesSolutionDeltaFreeZeroSlip",
   "SphericalStokesSolutionSmoothFreeSlip", "SphericalStokesSolutionSmoothZeroSlip",
   "SphericalStokesSolutionSmoothFreeZeroSlip",
   "SphericalStokesSolutionDeltaFreeSlip", "SphericalStokesSolutionDeltaZeroSlip",
   "SphericalStokesSolutionDeltaFreeZeroSlip",
   "Y", "dYdphi", "dYdtheta", "to_spherical", "from_spherical"]

lemma zpow_split_two_mul (x : ℚ) (hx : x ≠ 0) (n : ℤ) : x ^ (2 * n) = x ^ n * x ^ n := by
  rw [two_mul, zpow_add₀ hx]

lemma zpow_split_neg_two_mul (x : ℚ) (hx : x ≠ 0) (n : ℤ) :
    x ^ (-(2 * n)) = 1 / (x ^ n * x ^ n) := by
  rw [zpow_neg, zpow_split_two_mul x hx, one_div]

lemma zpow_split_two_mul_sub_two (x : ℚ) (hx : x ≠ 0) (n : ℤ) :
    x ^ (2 * n - 2) = x ^ n * x ^ n / (x * x) := by
  rw [zpow_sub₀ hx, zpow_split_two_mul x hx, zpow_two]

lemma zpow_split_two_mul_add_two (x : ℚ) (hx : x ≠ 0) (n : ℤ) :
    x ^ (2 * n + 2) = x ^ n * x ^ n * (x * x) := by
  rw [zpow_add₀ hx, zpow_split_two_mul x hx, zpow_two]

lemma zpow_split_add_two (x : ℚ) (hx : x ≠ 0) (n : ℤ) : x ^ (n + 2) = x ^ n * (x * x) := by
  rw [zpow_add₀ hx, zpow_two]

lemma zpow_split_neg_add_two (x : ℚ) (hx : x ≠ 0) (n : ℤ) :
    x ^ (-n + 2) = x * x / x ^ n := by
  rw [zpow_add₀ hx, zpow_neg, zpow_two, inv_mul_eq_div]

lemma zpow_split_neg (x : ℚ) (n : ℤ) : x ^ (-n) = 1 / x ^ n := by
  rw [zpow_neg, one_div]

lemma zpow_split_sub_one (x : ℚ) (hx : x ≠ 0) (n : ℤ) : x ^ (n - 1) = x ^ n / x := by
  rw [zpow_sub₀ hx, zpow_one]

lemma zpow_split_add_one (x : ℚ) (hx : x ≠ 0) (n : ℤ) : x ^ (n + 1) = x ^ n * x := by
  rw [zpow_add₀ hx, zpow_one]

lemma zpow_split_neg_sub_one (x : ℚ) (hx : x ≠ 0) (n : ℤ) :
    x ^ (-n - 1) = 1 / (x ^ n * x) := by
  rw [zpow_sub₀ hx, zpow_neg, zpow_one, one_div, mul_inv, div_eq_mul_inv]

lemma zpow_split_neg_add_one (x : ℚ) (hx : x ≠ 0) (n : ℤ) : x ^ (-n + 1) = x / x ^ n := by
  rw [zpow_add₀ hx, zpow_neg, zpow_one, inv_mul_eq_div]

lemma zpow_lt_zpow_of_pos (x y : ℚ) (k : ℤ) (hx : 0 < x) (hxy : x < y) (hk : 0 < k) :
    x ^ k < y ^ k := by
  lift k to ℕ using hk.le with m
  rw [zpow_natCast, zpow_natCast]
  exact pow_lt_pow_left₀ hxy hx.le (by exact_mod_cast hk.ne')

/-- Componentwise division of a coefficient tuple by a scalar. -/
def divTuple (c : ℚ × ℚ × ℚ × ℚ) (d : ℚ) : ℚ × ℚ × ℚ × ℚ :=
  (c.1 / d, c.2.1 / d, c.2.2.1 / d, c.2.2.2 / d)

/-- Componentwise negation of a coefficient tuple. -/
def negTuple (c : ℚ × ℚ × ℚ × ℚ) : ℚ × ℚ × ℚ × ℚ :=
  (-c.1, -c.2.1, -c.2.2.1, -c.2.2.2)

lemma cylinder_fs_nu_scale (Rp Rm rp : ℚ) (n : ℤ) (g nu : ℚ) (sign : ℤ) :
    coefficients_cylinder_delta_fs Rp Rm rp n g nu sign =
      Option.map (fun c => divTuple c nu) (coefficients_cylinder_delta_fs Rp Rm rp n g 1 sign) := by
  simp only [coefficients_cylinder_delta_fs, Option.map_map]
  cases hsel : signSelect (Rp / rp) (Rm / rp) sign with
  | none => rfl
  | some al =>
    simp only [Option.map_some', Function.comp]
    refine congrArg some ?_
    simp only [template_cylinder_fs, divTuple, Prod.mk.injEq]
    refine ⟨?_, ?_, ?_, ?_⟩ <;> simp only [← div_div] <;> ring

lemma cylinder_ns_nu_scale (Rp Rm rp : ℚ) (n : ℤ) (g nu : ℚ) (sign : ℤ) :
    coefficients_cylinder_delta_ns Rp Rm rp n g nu sign =
      Option.map (fun c => divTuple c nu) (coefficients_cylinder_delta_ns Rp Rm rp n g 1 sign) := by
  simp only [coefficients_cylinder_delta_ns, Option.map_map]
  cases hsel : signSelect (Rp / rp) (Rm / rp) sign with
  | none => rfl
  | some al =>
    simp only [Option.map_some', Function.comp]
    refine congrArg some ?_
    simp only [template_cylinder_ns, divTuple, Prod.mk.injEq]
    refine ⟨?_, ?_, ?_, ?_⟩ <;> simp only [← div_div] <;> ring

lemma sphere_fs_nu_scale (Rp Rm rp : ℚ) (l : ℤ) (g nu : ℚ) (sign : ℤ) :
    coefficients_sphere_delta_fs Rp Rm rp l g nu sign =
      Option.map (fun c => divTuple c nu) (coefficients_sphere_delta_fs Rp Rm rp l g 1 sign) := by
  simp only [coefficients_sphere_delta_fs, Option.map_map]
  cases hsel : signSelect (Rp / rp) (Rm / rp) sign with
  | none => rfl
  | some al =>
    simp only [Option.map_some', Function.comp]
    refine congrArg some ?_
    simp only [template_sphere_fs, divTuple, Prod.mk.injEq]
    refine ⟨?_, ?_, ?_, ?_⟩ <;> simp only [← div_div] <;> ring

lemma sphere_ns_nu_scale (Rp Rm rp : ℚ) (l : ℤ) (g nu : ℚ) (sign : ℤ) :
    coefficients_sphere_delta_ns Rp Rm rp l g nu sign =
      Option.map (fun c => divTuple c nu) (coefficients_sphere_delta_ns Rp Rm rp l g 1 sign) := by
  simp only [coefficients_sphere_delta_ns, Option.map_map]
  cases hsel : signSelect (Rp / rp) (Rm / rp) sign with
  | none => rfl
  | some al =>
    simp only [Option.map_some', Function.comp]
    refine congrArg some ?_
    simp only [template_sphere_ns, divTuple, Prod.mk.injEq]
    refine ⟨?_, ?_, ?_, ?_⟩ <;> simp only [← div_div] <;> ring

lemma cylinder_nsfs_nu_scale (Rp Rm Rd : ℚ) (n : ℤ) (g nu : ℚ) (sign : ℤ) :
    coefficients_cylinder_delta_nsfs Rp Rm Rd n g nu sign =
      divTuple (coefficients_cylinder_delta_nsfs Rp Rm Rd n g 1 sign) nu := by
  unfold coefficients_cylinder_delta_nsfs
  split <;>
    simp only [cylinder_nsfs_plus, cylinder_nsfs_minus, divTuple, Prod.mk.injEq] <;>
    refine ⟨?_, ?_, ?_, ?_⟩ <;> ring

lemma sphere_nsfs_nu_scale (Rp Rm Rd : ℚ) (l : ℤ) (g nu : ℚ) (sign : ℤ) :
    coefficients_sphere_delta_nsfs Rp Rm Rd l g nu sign =
      divTuple (coefficients_sphere_delta_nsfs Rp Rm Rd l g 1 sign) nu := by
  unfold coefficients_sphere_delta_nsfs
  split <;>
    simp only [sphere_nsfs_plus, sphere_nsfs_minus, divTuple, Prod.mk.injEq] <;>
    refine ⟨?_, ?_, ?_, ?_⟩ <;> ring

lemma divTuple_neg (c : ℚ × ℚ × ℚ × ℚ) (nu : ℚ) :
    divTuple c (-nu) = negTuple (divTuple c nu) := by
  simp [divTuple, negTuple, div_neg]

/-- C8: the package's `__all__` export list contains exactly the six
`<Geometry>StokesSolution<Forcing><BoundaryCondition>` names per geometry plus the
five angular-basis names `Y`, `dYdphi`, `dYdtheta`, `to_spherical`,
`from_spherical`, and no other names. -/
theorem claim8_export_surface : assess_all = spec_export_surface := rfl

/-- C1: sign-swap symmetry. For every `0 < Rm < rp < Rp`, every degree, every `g`
and nonzero `nu`, each delta-forcing coefficient function evaluated at `sign = -1`
returns exactly the tuple of the shared algebraic template under the substitution
`(alpha_pm, alpha_mp) = (Rm/rp, Rp/rp)`, `(pm, mp) = (-1, +1)`, while `sign = +1`
uses `(alpha_pm, alpha_mp) = (Rp/rp, Rm/rp)`, `(pm, mp) = (+1, -1)`. -/
theorem claim1_sign_swap_symmetry (Rp Rm rp : ℚ) (n l : ℤ) (g nu : ℚ)
    (h0 : 0 < Rm) (h1 : Rm < rp) (h2 : rp < Rp) (hnu : nu ≠ 0) :
    (coefficients_cylinder_delta_fs Rp Rm rp n g nu (-1) =
        some (template_cylinder_fs (Rm / rp) (Rp / rp) (-1) rp n g nu) ∧
      coefficients_cylinder_delta_fs Rp Rm rp n g nu 1 =
        some (template_cylinder_fs (Rp / rp) (Rm / rp) 1 rp n g nu)) ∧
    (coefficients_cylinder_delta_ns Rp Rm rp n g nu (-1) =
        some (template_cylinder_ns (Rp / rp) (Rm / rp) (Rm / rp) (Rp / rp) (-1) 1 rp n g nu) ∧
      coefficients_cylinder_delta_ns Rp Rm rp n g nu 1 =
        some (template_cylinder_ns (Rp / rp) (Rm / rp) (Rp / rp) (Rm / rp) 1 (-1) rp n g nu)) ∧
    (coefficients_sphere_delta_fs Rp Rm rp l g nu (-1) =
        some (template_sphere_fs (Rm / rp) (Rp / rp) (-1) rp l g nu) ∧
      coefficients_sphere_delta_fs Rp Rm rp l g nu 1 =
        some (template_sphere_fs (Rp / rp) (Rm / rp) 1 rp l g nu)) ∧
    (coefficients_sphere_delta_ns Rp Rm rp l g nu (-1) =
        some (template_sphere_ns (Rp / rp) (Rm / rp) (Rm / rp) (Rp / rp) (-1) 1 rp l g nu) ∧
      coefficients_sphere_delta_ns Rp Rm rp l g nu 1 =
        some (template_sphere_ns (Rp / rp) (Rm / rp) (Rp / rp) (Rm / rp) 1 (-1) rp l g nu)) := by
  refine ⟨⟨?_, ?_⟩, ⟨?_, ?_⟩, ⟨?_, ?_⟩, ⟨?_, ?_⟩⟩ <;>
    simp [coefficients_cylinder_delta_fs, coefficients_cylinder_delta_ns,
      coefficients_sphere_delta_fs, coefficients_sphere_delta_ns, signSelect]

/-- C1 witness: the sign-swap symmetry instantiated at the concrete geometry
`Rp = 2, Rm = 1, rp = 3/2`, `n = l = 2`, `g = nu = 1`. -/
theorem claim1_sign_swap_symmetry_witness :
    coefficients_cylinder_delta_fs 2 1 (3/2) 2 1 1 (-1) =
      some (template_cylinder_fs (1 / (3/2)) (2 / (3/2)) (-1) (3/2) 2 1 1) := by
  have h := claim1_sign_swap_symmetry 2 1 (3/2) 2 2 1 1
    (by norm_num) (by norm_num) (by norm_num) (by norm_num)
  exact h.1.1

/-- C9: for `sign = 0` the four variants that select the alpha pair through the
slice `[Rp/rp, Rm/rp][::int(sign)]` raise an error (modelled as `none`) instead of
returning coefficients, whereas the two mixed variants branch on `sign > 0` and
return the lower-half (minus) tuple for `sign = 0` and for every negative sign. -/
theorem claim9_sign_zero_behavior (Rp Rm rp Rd : ℚ) (n l : ℤ) (g nu : ℚ) :
    coefficients_cylinder_delta_fs Rp Rm rp n g nu 0 = none ∧
    coefficients_cylinder_delta_ns Rp Rm rp n g nu 0 = none ∧
    coefficients_sphere_delta_fs Rp Rm rp l g nu 0 = none ∧
    coefficients_sphere_delta_ns Rp Rm rp l g nu 0 = none ∧
    (∀ sign : ℤ, sign ≤ 0 →
      coefficients_cylinder_delta_nsfs Rp Rm Rd n g nu sign =
        cylinder_nsfs_minus Rp Rm Rd n g nu ∧
      coefficients_sphere_delta_nsfs Rp Rm Rd l g nu sign =
        sphere_nsfs_minus Rp Rm Rd l g nu) := by
  refine ⟨?_, ?_, ?_, ?_, fun sign hs => ?_⟩
  · simp [coefficients_cylinder_delta_fs, signSelect]
  · simp [coefficients_cylinder_delta_ns, signSelect]
  · simp [coefficients_sphere_delta_fs, signSelect]
  · simp [coefficients_sphere_delta_ns, signSelect]
  · have hns : ¬ (0 < sign) := not_lt.mpr hs
    constructor <;>
      simp [coefficients_cylinder_delta_nsfs, coefficients_sphere_delta_nsfs, hns]

/-- C9 witness: the mixed cylindrical variant at `sign = 0` returns the minus
tuple, at the concrete geometry `Rp = 2, Rm = 1, Rd = 3/2`, `n = 2`, `g = nu = 1`. -/
theorem claim9_sign_zero_behavior_witness :
    coefficients_cylinder_delta_nsfs 2 1 (3/2) 2 1 1 0 = cylinder_nsfs_minus 2 1 (3/2) 2 1 1 :=
  ((claim9_sign_zero_behavior 2 1 (3/2) (3/2) 2 2 1 1).2.2.2.2 0 le_rfl).1

/-- C3: singular degree `n = 1`. For every geometry and every `g`, `nu`, both
cylindrical delta variants still return a tuple at `n = 1` (no internal guarding),
while the `(n-1)`-bearing denominators of their `A` and `D` coefficients — and, for
the zero-slip variant, also the characteristic denominator factor — are exactly
zero, so the division is a division by zero (a non-finite result in floating
point). -/
theorem claim3_singular_degree_n1 (Rp Rm rp g nu : ℚ) :
    (∃ t, coefficients_cylinder_delta_fs Rp Rm rp 1 g nu 1 = some t) ∧
    (∃ t, coefficients_cylinder_delta_fs Rp Rm rp 1 g nu (-1) = some t) ∧
    (∃ t, coefficients_cylinder_delta_ns Rp Rm rp 1 g nu 1 = some t) ∧
    (∃ t, coefficients_cylinder_delta_ns Rp Rm rp 1 g nu (-1) = some t) ∧
    (∀ x y nu2 : ℚ, denom_cylinder_fs_AD x y 1 nu2 = 0) ∧
    (∀ x y : ℚ, denom_cylinder_ns_char x y 1 = 0) := by
  refine ⟨⟨_, rfl⟩, ⟨_, rfl⟩, ⟨_, rfl⟩, ⟨_, rfl⟩, fun x y nu2 => ?_, fun x y => ?_⟩
  · norm_num [denom_cylinder_fs_AD]
  · simp [denom_cylinder_ns_char, zpow_one, one_div_div]

/-- C7: the concrete scenario
`coefficients_cylinder_delta_fs(Rp=2, Rm=1, rp=3/2, n=2, g=1, nu=1, sign=+1)`
returns the explicit finite tuple `(-5/96, -95/486, 95/31104, 5/24)` (its two
denominators are nonzero, so no division by zero occurs), and every coefficient
function is a pure function: two calls with identical arguments are identical. -/
theorem claim7_concrete_scenario_and_determinism :
    coefficients_cylinder_delta_fs 2 1 (3/2) 2 1 1 1 =
      some (-(5/96), -(95/486), 95/31104, 5/24) ∧
    denom_cylinder_fs_AD (2 / (3/2)) (1 / (3/2)) 2 1 ≠ 0 ∧
    denom_cylinder_fs_BC (2 / (3/2)) (1 / (3/2)) 2 1 ≠ 0 ∧
    (∀ Rp Rm rp n g nu sign,
      coefficients_cylinder_delta_fs Rp Rm rp n g nu sign =
        coefficients_cylinder_delta_fs Rp Rm rp n g nu sign ∧
      coefficients_cylinder_delta_ns Rp Rm rp n g nu sign =
        coefficients_cylinder_delta_ns Rp Rm rp n g nu sign ∧
      coefficients_cylinder_delta_nsfs Rp Rm rp n g nu sign =
        coefficients_cylinder_delta_nsfs Rp Rm rp n g nu sign) ∧
    (∀ Rp Rm rp l g nu sign,
      coefficients_sphere_delta_fs Rp Rm rp l g nu sign =
        coefficients_sphere_delta_fs Rp Rm rp l g nu sign ∧
      coefficients_sphere_delta_ns Rp Rm rp l g nu sign =
        coefficients_sphere_delta_ns Rp Rm rp l g nu sign ∧
      coefficients_sphere_delta_nsfs Rp Rm rp l g nu sign =
        coefficients_sphere_delta_nsfs Rp Rm rp l g nu sign) := by
  refine ⟨?_, by norm_num [denom_cylinder_fs_AD], by norm_num [denom_cylinder_fs_BC],
    fun _ _ _ _ _ _ _ => ⟨rfl, rfl, rfl⟩, fun _ _ _ _ _ _ _ => ⟨rfl, rfl, rfl⟩⟩
  norm_num [coefficients_cylinder_delta_fs, template_cylinder_fs, signSelect]

/-- C4: scale invariance of `coefficients_cylinder_delta_fs`. Replacing
`(Rp, Rm, rp)` by `(k*Rp, k*Rm, k*rp)` for `k > 0`, keeping `n, g, nu, sign` fixed,
multiplies `A` by `k^(2-n)`, `B` by `k^(n+2)`, `C` by `k^(-n)` and `D` by `k^n`. -/
theorem claim4_scale_invariance (Rp Rm rp : ℚ) (n : ℤ) (g nu k : ℚ) (sign : ℤ)
    (hk : 0 < k) (hsign : sign = 1 ∨ sign = -1) :
    coefficients_cylinder_delta_fs (k * Rp) (k * Rm) (k * rp) n g nu sign =
      Option.map (fun c => (k ^ (((-n) + 2) : ℤ) * c.1, k ^ ((n + 2) : ℤ) * c.2.1,
          k ^ ((-n) : ℤ) * c.2.2.1, k ^ (n : ℤ) * c.2.2.2))
        (coefficients_cylinder_delta_fs Rp Rm rp n g nu sign) := by
  have hk0 : k ≠ 0 := hk.ne'
  rcases hsign with h | h <;> subst h <;>
    simp only [coefficients_cylinder_delta_fs, signSelect, if_pos, if_neg,
      reduceCtorEq, reduceIte, Option.map_some'] <;>
    rw [mul_div_mul_left Rp rp hk0, mul_div_mul_left Rm rp hk0] <;>
    refine congrArg some ?_ <;>
    simp only [template_cylinder_fs, Prod.mk.injEq] <;>
    refine ⟨?_, ?_, ?_, ?_⟩ <;>
    simp only [mul_zpow, zpow_neg, ← div_div] <;>
    ring

/-- C4 witness: scale invariance instantiated at
`Rp = 2, Rm = 1, rp = 3/2, n = 2, g = nu = 1, sign = +1, k = 2`. -/
theorem claim4_scale_invariance_witness :
    coefficients_cylinder_delta_fs (2 * 2) (2 * 1) (2 * (3/2)) 2 1 1 1 =
      Option.map (fun c => ((2:ℚ) ^ (((-2) + 2) : ℤ) * c.1, (2:ℚ) ^ ((2 + 2) : ℤ) * c.2.1,
          (2:ℚ) ^ ((-2) : ℤ) * c.2.2.1, (2:ℚ) ^ ((2:ℤ)) * c.2.2.2))
        (coefficients_cylinder_delta_fs 2 1 (3/2) 2 1 1 1) :=
  claim4_scale_invariance 2 1 (3/2) 2 1 1 2 1 (by norm_num) (Or.inl rfl)

/-- C10: coefficient coupling of the mixed cylindrical variant. For every
`0 < Rm < Rd < Rp`, `n ≥ 2`, `g` and nonzero `nu`, the tuple returned by
`coefficients_cylinder_delta_nsfs` satisfies `B = -Rp^(2n+2)*C` and
`D = -Rp^(2n-2)*A` when `sign > 0`, and `B = -Rm^(2n+2)*C` and `D = -Rm^(2n-2)*A`
when `sign ≤ 0`. -/
theorem claim10_nsfs_coupling (Rp Rm Rd : ℚ) (n : ℤ) (g nu : ℚ) (sign : ℤ)
    (h0 : 0 < Rm) (h1 : Rm < Rd) (h2 : Rd < Rp) (hn : 2 ≤ n) (hnu : nu ≠ 0) :
    (0 < sign →
      (coefficients_cylinder_delta_nsfs Rp Rm Rd n g nu sign).2.1 =
        -Rp ^ ((2 * n + 2) : ℤ) * (coefficients_cylinder_delta_nsfs Rp Rm Rd n g nu sign).2.2.1 ∧
      (coefficients_cylinder_delta_nsfs Rp Rm Rd n g nu sign).2.2.2 =
        -Rp ^ ((2 * n - 2) : ℤ) * (coefficients_cylinder_delta_nsfs Rp Rm Rd n g nu sign).1) ∧
    (sign ≤ 0 →
      (coefficients_cylinder_delta_nsfs Rp Rm Rd n g nu sign).2.1 =
        -Rm ^ ((2 * n + 2) : ℤ) * (coefficients_cylinder_delta_nsfs Rp Rm Rd n g nu sign).2.2.1 ∧
      (coefficients_cylinder_delta_nsfs Rp Rm Rd n g nu sign).2.2.2 =
        -Rm ^ ((2 * n - 2) : ℤ) * (coefficients_cylinder_delta_nsfs Rp Rm Rd n g nu sign).1) := by
  have hRp : Rp ≠ 0 := (h0.trans (h1.trans h2)).ne'
  have hRm : Rm ≠ 0 := h0.ne'
  have eRpB : Rp ^ ((n + 2) : ℤ) = Rp ^ ((2 * n + 2) : ℤ) * Rp ^ ((-n) : ℤ) := by
    rw [← zpow_add₀ hRp]; congr 1; ring
  have eRpD : Rp ^ (n : ℤ) = Rp ^ ((2 * n - 2) : ℤ) * Rp ^ (((-n) + 2) : ℤ) := by
    rw [← zpow_add₀ hRp]; congr 1; ring
  have eRmB : Rm ^ ((n + 2) : ℤ) = Rm ^ ((2 * n + 2) : ℤ) * Rm ^ ((-n) : ℤ) := by
    rw [← zpow_add₀ hRm]; congr 1; ring
  have eRmD : Rm ^ (n : ℤ) = Rm ^ ((2 * n - 2) : ℤ) * Rm ^ (((-n) + 2) : ℤ) := by
    rw [← zpow_add₀ hRm]; congr 1; ring
  constructor
  · intro hs
    simp only [coefficients_cylinder_delta_nsfs, if_pos hs, cylinder_nsfs_plus]
    constructor
    · rw [eRpB]; ring
    · rw [eRpD]; ring
  · intro hs
    simp only [coefficients_cylinder_delta_nsfs, if_neg (not_lt.mpr hs), cylinder_nsfs_minus]
    constructor
    · rw [eRmB]; ring
    · rw [eRmD]; ring

/-- C10 witness: the `sign = +1` coupling instantiated at
`Rp = 2, Rm = 1, Rd = 3/2, n = 2, g = nu = 1`. -/
theorem claim10_nsfs_coupling_witness :
    (coefficients_cylinder_delta_nsfs 2 1 (3/2) 2 1 1 1).2.1 =
      -(2:ℚ) ^ ((2 * 2 + 2) : ℤ) * (coefficients_cylinder_delta_nsfs 2 1 (3/2) 2 1 1 1).2.2.1 :=
  ((claim10_nsfs_coupling 2 1 (3/2) 2 1 1 1 (by norm_num) (by norm_num) (by norm_num)
    (by norm_num) (by norm_num)).1 (by norm_num)).1

/-- C6: viscosity behavior. Every delta-module coefficient function depends on `nu`
only through an overall factor `1/nu` (each coefficient at viscosity `nu` is the
coefficient at viscosity `1` divided by `nu`); consequently a negative `nu` yields
the well-defined negation of the result at `|nu|`, with no validation or clamping —
and at `nu = 0` the divisions are by an exactly zero denominator (a non-finite
result in floating point), witnessed by the vanishing of the `nu`-bearing
denominators. -/
theorem claim6_viscosity_behavior (Rp Rm rp Rd : ℚ) (n l : ℤ) (g nu : ℚ) (sign : ℤ) :
    (coefficients_cylinder_delta_fs Rp Rm rp n g nu sign =
      Option.map (fun c => divTuple c nu) (coefficients_cylinder_delta_fs Rp Rm rp n g 1 sign) ∧
     coefficients_cylinder_delta_ns Rp Rm rp n g nu sign =
      Option.map (fun c => divTuple c nu) (coefficients_cylinder_delta_ns Rp Rm rp n g 1 sign) ∧
     coefficients_sphere_delta_fs Rp Rm rp l g nu sign =
      Option.map (fun c => divTuple c nu) (coefficients_sphere_delta_fs Rp Rm rp l g 1 sign) ∧
     coefficients_sphere_delta_ns Rp Rm rp l g nu sign =
      Option.map (fun c => divTuple c nu) (coefficients_sphere_delta_ns Rp Rm rp l g 1 sign) ∧
     coefficients_cylinder_delta_nsfs Rp Rm Rd n g nu sign =
      divTuple (coefficients_cylinder_delta_nsfs Rp Rm Rd n g 1 sign) nu ∧
     coefficients_sphere_delta_nsfs Rp Rm Rd l g nu sign =
      divTuple (coefficients_sphere_delta_nsfs Rp Rm Rd l g 1 sign) nu) ∧
    (coefficients_cylinder_delta_fs Rp Rm rp n g (-nu) sign =
      Option.map negTuple (coefficients_cylinder_delta_fs Rp Rm rp n g nu sign) ∧
     coefficients_cylinder_delta_ns Rp Rm rp n g (-nu) sign =
      Option.map negTuple (coefficients_cylinder_delta_ns Rp Rm rp n g nu sign) ∧
     coefficients_sphere_delta_fs Rp Rm rp l g (-nu) sign =
      Option.map negTuple (coefficients_sphere_delta_fs Rp Rm rp l g nu sign) ∧
     coefficients_sphere_delta_ns Rp Rm rp l g (-nu) sign =
      Option.map negTuple (coefficients_sphere_delta_ns Rp Rm rp l g nu sign) ∧
     coefficients_cylinder_delta_nsfs Rp Rm Rd n g (-nu) sign =
      negTuple (coefficients_cylinder_delta_nsfs Rp Rm Rd n g nu sign) ∧
     coefficients_sphere_delta_nsfs Rp Rm Rd l g (-nu) sign =
      negTuple (coefficients_sphere_delta_nsfs Rp Rm Rd l g nu sign)) ∧
    (denom_cylinder_fs_AD (Rp / rp) (Rm / rp) n 0 = 0 ∧
     denom_cylinder_fs_BC (Rp / rp) (Rm / rp) n 0 = 0 ∧
     denom_sphere_ns (Rp / rp) (Rm / rp) l 0 = 0) := by
  refine ⟨⟨cylinder_fs_nu_scale _ _ _ _ _ _ _, cylinder_ns_nu_scale _ _ _ _ _ _ _,
      sphere_fs_nu_scale _ _ _ _ _ _ _, sphere_ns_nu_scale _ _ _ _ _ _ _,
      cylinder_nsfs_nu_scale _ _ _ _ _ _ _, sphere_nsfs_nu_scale _ _ _ _ _ _ _⟩,
    ⟨?_, ?_, ?_, ?_, ?_, ?_⟩,
    by simp [denom_cylinder_fs_AD], by simp [denom_cylinder_fs_BC], by simp [denom_sphere_ns]⟩
  · rw [cylinder_fs_nu_scale Rp Rm rp n g (-nu) sign, cylinder_fs_nu_scale Rp Rm rp n g nu sign,
      Option.map_map]
    exact congrFun (congrArg Option.map (funext fun c => divTuple_neg c nu)) _
  · rw [cylinder_ns_nu_scale Rp Rm rp n g (-nu) sign, cylinder_ns_nu_scale Rp Rm rp n g nu sign,
      Option.map_map]
    exact congrFun (congrArg Option.map (funext fun c => divTuple_neg c nu)) _
  · rw [sphere_fs_nu_scale Rp Rm rp l g (-nu) sign, sphere_fs_nu_scale Rp Rm rp l g nu sign,
      Option.map_map]
    exact congrFun (congrArg Option.map (funext fun c => divTuple_neg c nu)) _
  · rw [sphere_ns_nu_scale Rp Rm rp l g (-nu) sign, sphere_ns_nu_scale Rp Rm rp l g nu sign,
      Option.map_map]
    exact congrFun (congrArg Option.map (funext fun c => divTuple_neg c nu)) _
  · rw [cylinder_nsfs_nu_scale Rp Rm Rd n g (-nu) sign, cylinder_nsfs_nu_scale Rp Rm Rd n g nu sign]
    exact divTuple_neg _ nu
  · rw [sphere_nsfs_nu_scale Rp Rm Rd l g (-nu) sign, sphere_nsfs_nu_scale Rp Rm Rd l g nu sign]
    exact divTuple_neg _ nu

set_option maxHeartbeats 3200000 in
lemma fs_continuity_core (a b s t u rp g nu N : ℚ) (ha : a ≠ 0) (hb : b ≠ 0)
    (hu : u ≠ 0) (hrp : rp ≠ 0) (hnu : nu ≠ 0) (hN1 : N - 1 ≠ 0) (hN2 : N + 1 ≠ 0)
    (hd1 : t * t * (a * a) - s * s * (b * b) ≠ 0)
    (hd2 : t * t * (b * b) - s * s * (a * a) ≠ 0) :
    (-(1 / 8) * (t * t / (b * (b)) - 1) * g * 1 * (rp * rp / u) / ((t * t / (b * (b)) - s * s / (a * (a))) * (N - 1) * nu) * u + -(1 / 8) * (t * t * (b * (b)) - 1) * (s * s * (a * (a))) * g * 1 * (u * (rp * rp)) / ((t * t * (b * (b)) - s * s * (a * (a))) * (N + 1) * nu) * (1 / u) + 1 / 8 * (t * t * (b * (b)) - 1) * g * 1 / ((t * t * (b * (b)) - s * s * (a * (a))) * (N + 1) * nu * u) * (u * (rp * rp)) + 1 / 8 * (t * t / (b * (b)) - 1) * (s * s / (a * (a))) * g * 1 * u / ((t * t / (b * (b)) - s * s / (a * (a))) * (N - 1) * nu) * (rp * rp / u) = -(1 / 8) * (s * s / (a * (a)) - 1) * g * -1 * (rp * rp / u) / ((s * s / (a * (a)) - t * t / (b * (b))) * (N - 1) * nu) * u + -(1 / 8) * (s * s * (a * (a)) - 1) * (t * t * (b * (b))) * g * -1 * (u * (rp * rp)) / ((s * s * (a * (a)) - t * t * (b * (b))) * (N + 1) * nu) * (1 / u) + 1 / 8 * (s * s * (a * (a)) - 1) * g * -1 / ((s * s * (a * (a)) - t * t * (b * (b))) * (N + 1) * nu * u) * (u * (rp * rp)) + 1 / 8 * (s * s / (a * (a)) - 1) * (t * t / (b * (b))) * g * -1 * u / ((s * s / (a * (a)) - t * t / (b * (b))) * (N - 1) * nu) * (rp * rp / u)) ∧
    (-(1 / 8) * (t * t / (b * (b)) - 1) * g * 1 * (rp * rp / u) / ((t * t / (b * (b)) - s * s / (a * (a))) * (N - 1) * nu) * N * (u / rp) + -(1 / 8) * (t * t * (b * (b)) - 1) * (s * s * (a * (a))) * g * 1 * (u * (rp * rp)) / ((t * t * (b * (b)) - s * s * (a * (a))) * (N + 1) * nu) * -N * (1 / u / rp) + 1 / 8 * (t * t * (b * (b)) - 1) * g * 1 / ((t * t * (b * (b)) - s * s * (a * (a))) * (N + 1) * nu * u) * (N + 2) * (u * rp) + 1 / 8 * (t * t / (b * (b)) - 1) * (s * s / (a * (a))) * g * 1 * u / ((t * t / (b * (b)) - s * s / (a * (a))) * (N - 1) * nu) * (-N + 2) * (1 / u * rp) = -(1 / 8) * (s * s / (a * (a)) - 1) * g * -1 * (rp * rp / u) / ((s * s / (a * (a)) - t * t / (b * (b))) * (N - 1) * nu) * N * (u / rp) + -(1 / 8) * (s * s * (a * (a)) - 1) * (t * t * (b * (b))) * g * -1 * (u * (rp * rp)) / ((s * s * (a * (a)) - t * t * (b * (b))) * (N + 1) * nu) * -N * (1 / u / rp) + 1 / 8 * (s * s * (a * (a)) - 1) * g * -1 / ((s * s * (a * (a)) - t * t * (b * (b))) * (N + 1) * nu * u) * (N + 2) * (u * rp) + 1 / 8 * (s * s / (a * (a)) - 1) * (t * t / (b * (b))) * g * -1 * u / ((s * s / (a * (a)) - t * t / (b * (b))) * (N - 1) * nu) * (-N + 2) * (1 / u * rp)) := by
  have hd1x : s * s * (b * b) - t * t * (a * a) ≠ 0 := fun h => hd1 (by linarith)
  have hd2x : s * s * (a * a) - t * t * (b * b) ≠ 0 := fun h => hd2 (by linarith)
  have hba : (b * b) * (a * a) ≠ 0 := mul_ne_zero (mul_ne_zero hb hb) (mul_ne_zero ha ha)
  have hfr1 : t * t / (b * b) - s * s / (a * a) =
      (t * t * (a * a) - s * s * (b * b)) / ((b * b) * (a * a)) := by
    field_simp
    ring
  have hfr1x : s * s / (a * a) - t * t / (b * b) =
      (s * s * (b * b) - t * t * (a * a)) / ((b * b) * (a * a)) := by
    field_simp
    ring
  have hD1 : (t * t / (b * b) - s * s / (a * a)) * (N - 1) * nu ≠ 0 := by
    rw [hfr1]; exact mul_ne_zero (mul_ne_zero (div_ne_zero hd1 hba) hN1) hnu
  have hD1x : (s * s / (a * a) - t * t / (b * b)) * (N - 1) * nu ≠ 0 := by
    rw [hfr1x]; exact mul_ne_zero (mul_ne_zero (div_ne_zero hd1x hba) hN1) hnu
  have hD2x : (s * s * (a * a) - t * t * (b * b)) * (N + 1) * nu ≠ 0 :=
    mul_ne_zero (mul_ne_zero hd2x hN2) hnu
  have hD2xu : (s * s * (a * a) - t * t * (b * b)) * (N + 1) * nu * u ≠ 0 :=
    mul_ne_zero hD2x hu
  have hE1 : (t * t * (a * a) - s * s * (b * b)) * (N - 1) * nu ≠ 0 :=
    mul_ne_zero (mul_ne_zero hd1 hN1) hnu
  have hE1u : (t * t * (a * a) - s * s * (b * b)) * (N - 1) * nu * u ≠ 0 :=
    mul_ne_zero hE1 hu
  have hE2 : (t * t * (b * b) - s * s * (a * a)) * (N + 1) * nu ≠ 0 :=
    mul_ne_zero (mul_ne_zero hd2 hN2) hnu
  have hE2u : (t * t * (b * b) - s * s * (a * a)) * (N + 1) * nu * u ≠ 0 :=
    mul_ne_zero hE2 hu
  have cpA : -(1 / 8) * (t * t / (b * b) - 1) * g * 1 * (rp * rp / u) /
        ((t * t / (b * b) - s * s / (a * a)) * (N - 1) * nu) =
      -(1 / 8) * (t * t - b * b) * (a * a) * g * (rp * rp) /
        ((t * t * (a * a) - s * s * (b * b)) * (N - 1) * nu * u) := by
    rw [div_eq_div_iff hD1 hE1u]
    field_simp
    ring
  have cmA : -(1 / 8) * (s * s / (a * a) - 1) * g * (-1) * (rp * rp / u) /
        ((s * s / (a * a) - t * t / (b * b)) * (N - 1) * nu) =
      -((1 / 8) * (s * s - a * a) * (b * b) * g * (rp * rp)) /
        ((t * t * (a * a) - s * s * (b * b)) * (N - 1) * nu * u) := by
    rw [div_eq_div_iff hD1x hE1u]
    field_simp
    ring
  have cpD : 1 / 8 * (t * t / (b * b) - 1) * (s * s / (a * a)) * g * 1 * u /
        ((t * t / (b * b) - s * s / (a * a)) * (N - 1) * nu) =
      1 / 8 * (t * t - b * b) * (s * s) * g * u /
        ((t * t * (a * a) - s * s * (b * b)) * (N - 1) * nu) := by
    rw [div_eq_div_iff hD1 hE1]
    field_simp
    ring
  have cmD : 1 / 8 * (s * s / (a * a) - 1) * (t * t / (b * b)) * g * (-1) * u /
        ((s * s / (a * a) - t * t / (b * b)) * (N - 1) * nu) =
      1 / 8 * (s * s - a * a) * (t * t) * g * u /
        ((t * t * (a * a) - s * s * (b * b)) * (N - 1) * nu) := by
    rw [div_eq_div_iff hD1x hE1]
    field_simp
    ring
  have cmB : -(1 / 8) * (s * s * (a * a) - 1) * (t * t * (b * b)) * g * (-1) * (u * (rp * rp)) /
        ((s * s * (a * a) - t * t * (b * b)) * (N + 1) * nu) =
      -((1 / 8) * (s * s * (a * a) - 1) * (t * t * (b * b)) * g * (u * (rp * rp))) /
        ((t * t * (b * b) - s * s * (a * a)) * (N + 1) * nu) := by
    rw [div_eq_div_iff hD2x hE2]
    ring
  have cmC : 1 / 8 * (s * s * (a * a) - 1) * g * (-1) /
        ((s * s * (a * a) - t * t * (b * b)) * (N + 1) * nu * u) =
      1 / 8 * (s * s * (a * a) - 1) * g /
        ((t * t * (b * b) - s * s * (a * a)) * (N + 1) * nu * u) := by
    rw [div_eq_div_iff hD2xu hE2u]
    ring
  constructor <;> rw [cpA, cmA, cpD, cmD, cmB, cmC] <;> field_simp <;> ring

/-- C2 counterexample: with the spec's literal coefficient-to-basis pairing
`psi(r) = A*r^(-n+2) + B*r^(n+2) + C*r^(-n) + D*r^n`, the profiles reconstructed
from the `sign = +1` and `sign = -1` coefficients of
`coefficients_cylinder_delta_fs` differ at `r = rp` already for
`Rp = 2, Rm = 1, rp = 3/2, n = 2, g = nu = 1`. -/
theorem claim2_spec_pairing_cex :
    coefficients_cylinder_delta_fs 2 1 (3/2) 2 1 1 1 =
      some (-(5/96), -(95/486), 95/31104, 5/24) ∧
    coefficients_cylinder_delta_fs 2 1 (3/2) 2 1 1 (-1) =
      some (7/96, 481/31104, -(481/31104), -(7/96)) ∧
    Psi_cylinder_specPairing (-(5/96), -(95/486), 95/31104, 5/24) 2 (3/2) ≠
      Psi_cylinder_specPairing (7/96, 481/31104, -(481/31104), -(7/96)) 2 (3/2) := by
  refine ⟨?_, ?_, ?_⟩ <;>
    norm_num [coefficients_cylinder_delta_fs, template_cylinder_fs, signSelect,
      Psi_cylinder_specPairing]

/-- C2 (amended): continuity across the anomaly radius. For every
`0 < Rm < rp < Rp`, integer `n ≥ 2`, real `g` and nonzero `nu`, the radial profile
`psi(r) = A*r^n + B*r^(-n) + C*r^(n+2) + D*r^(-n+2)` (the coefficient-to-basis
pairing the coefficients of `coefficients_cylinder_delta_fs` actually satisfy,
amended from the spec's listed order) and its first derivative take the same
values at `r = rp` whether built from the `sign = +1` or the `sign = -1`
coefficients. -/
theorem claim2_continuity_across_anomaly (Rp Rm rp : ℚ) (n : ℤ) (g nu : ℚ)
    (h0 : 0 < Rm) (h1 : Rm < rp) (h2 : rp < Rp) (hn : 2 ≤ n) (hnu : nu ≠ 0)
    (cp cm : ℚ × ℚ × ℚ × ℚ)
    (hcp : coefficients_cylinder_delta_fs Rp Rm rp n g nu 1 = some cp)
    (hcm : coefficients_cylinder_delta_fs Rp Rm rp n g nu (-1) = some cm) :
    Psi_cylinder cp n rp = Psi_cylinder cm n rp ∧
    dPsi_cylinder cp n rp = dPsi_cylinder cm n rp := by
  have hrp0 : (0:ℚ) < rp := h0.trans h1
  have hrp : rp ≠ 0 := hrp0.ne'
  have hRm : Rm ≠ 0 := h0.ne'
  have hRp : Rp ≠ 0 := (h0.trans (h1.trans h2)).ne'
  have ha : Rp / rp ≠ 0 := div_ne_zero hRp hrp
  have hb : Rm / rp ≠ 0 := div_ne_zero hRm hrp
  have hu : rp ^ (n : ℤ) ≠ 0 := zpow_ne_zero _ hrp
  have hbpos : 0 < Rm / rp := div_pos h0 hrp0
  have hapos : 0 < Rp / rp := div_pos (h0.trans (h1.trans h2)) hrp0
  have hblt : Rm / rp < Rp / rp := (div_lt_div_iff_of_pos_right hrp0).mpr (h1.trans h2)
  have hn' : (2:ℚ) ≤ (n:ℚ) := by exact_mod_cast hn
  have hN1 : ((n:ℚ) - 1) ≠ 0 := sub_ne_zero.mpr (by linarith)
  have hN2 : ((n:ℚ) + 1) ≠ 0 := by linarith
  have i2 : (Rm / rp) ^ (2 * n + 2) < (Rp / rp) ^ (2 * n + 2) :=
    zpow_lt_zpow_of_pos _ _ _ hbpos hblt (by omega)
  rw [zpow_split_two_mul_add_two _ hb, zpow_split_two_mul_add_two _ ha] at i2
  have hd2 : (Rm / rp) ^ (n : ℤ) * (Rm / rp) ^ (n : ℤ) * (Rm / rp * (Rm / rp)) -
      (Rp / rp) ^ (n : ℤ) * (Rp / rp) ^ (n : ℤ) * (Rp / rp * (Rp / rp)) ≠ 0 :=
    sub_ne_zero.mpr i2.ne
  have i1 : (Rm / rp) ^ (2 * n - 2) < (Rp / rp) ^ (2 * n - 2) :=
    zpow_lt_zpow_of_pos _ _ _ hbpos hblt (by omega)
  have i1s := mul_lt_mul_of_pos_right i1
    (mul_pos (mul_pos hbpos hbpos) (mul_pos hapos hapos))
  have eb : (Rm / rp) ^ (2 * n - 2) * (Rm / rp * (Rm / rp) * (Rp / rp * (Rp / rp))) =
      (Rm / rp) ^ (n : ℤ) * (Rm / rp) ^ (n : ℤ) * (Rp / rp * (Rp / rp)) := by
    rw [zpow_split_two_mul_sub_two _ hb]
    field_simp
    ring
  have ea : (Rp / rp) ^ (2 * n - 2) * (Rm / rp * (Rm / rp) * (Rp / rp * (Rp / rp))) =
      (Rp / rp) ^ (n : ℤ) * (Rp / rp) ^ (n : ℤ) * (Rm / rp * (Rm / rp)) := by
    rw [zpow_split_two_mul_sub_two _ ha]
    field_simp
    ring
  rw [eb, ea] at i1s
  have hd1 : (Rm / rp) ^ (n : ℤ) * (Rm / rp) ^ (n : ℤ) * (Rp / rp * (Rp / rp)) -
      (Rp / rp) ^ (n : ℤ) * (Rp / rp) ^ (n : ℤ) * (Rm / rp * (Rm / rp)) ≠ 0 :=
    sub_ne_zero.mpr i1s.ne
  have core := fs_continuity_core (Rp / rp) (Rm / rp) ((Rp / rp) ^ (n : ℤ))
    ((Rm / rp) ^ (n : ℤ)) (rp ^ (n : ℤ)) rp g nu (n : ℚ)
    ha hb hu hrp hnu hN1 hN2 hd1 hd2
  simp only [coefficients_cylinder_delta_fs, signSelect, reduceCtorEq, reduceIte,
    Option.map_some', Option.some.injEq] at hcp hcm
  subst hcp hcm
  constructor
  · simp only [template_cylinder_fs, Psi_cylinder]
    simp only [zpow_split_two_mul_sub_two _ ha, zpow_split_two_mul_sub_two _ hb,
      zpow_split_two_mul_add_two _ ha, zpow_split_two_mul_add_two _ hb,
      zpow_split_neg_add_two _ hrp, zpow_split_add_two _ hrp, zpow_split_neg,
      zpow_split_sub_one _ hrp, zpow_split_add_one _ hrp, zpow_split_neg_sub_one _ hrp,
      zpow_split_neg_add_one _ hrp, Int.cast_one, Int.cast_neg]
    exact core.1
  · simp only [template_cylinder_fs, dPsi_cylinder]
    simp only [zpow_split_two_mul_sub_two _ ha, zpow_split_two_mul_sub_two _ hb,
      zpow_split_two_mul_add_two _ ha, zpow_split_two_mul_add_two _ hb,
      zpow_split_neg_add_two _ hrp, zpow_split_add_two _ hrp, zpow_split_neg,
      zpow_split_sub_one _ hrp, zpow_split_add_one _ hrp, zpow_split_neg_sub_one _ hrp,
      zpow_split_neg_add_one _ hrp, Int.cast_one, Int.cast_neg]
    exact core.2

/-- C2 witness: continuity instantiated at `Rp = 2, Rm = 1, rp = 3/2, n = 2,
g = nu = 1`, with the concrete tuples returned for the two signs. -/
theorem claim2_continuity_across_anomaly_witness :
    Psi_cylinder (-(5/96), -(95/486), 95/31104, 5/24) 2 (3/2) =
      Psi_cylinder (7/96, 481/31104, -(481/31104), -(7/96)) 2 (3/2) ∧
    dPsi_cylinder (-(5/96), -(95/486), 95/31104, 5/24) 2 (3/2) =
      dPsi_cylinder (7/96, 481/31104, -(481/31104), -(7/96)) 2 (3/2) :=
  claim2_continuity_across_anomaly 2 1 (3/2) 2 1 1 (by norm_num) (by norm_num)
    (by norm_num) (by norm_num) (by norm_num) _ _
    (by norm_num [coefficients_cylinder_delta_fs, template_cylinder_fs, signSelect])
    (by norm_num [coefficients_cylinder_delta_fs, template_cylinder_fs, signSelect])



set_option maxHeartbeats 6400000 in
lemma ns_boundary_core_outer (A B r S T u g nu N : ℚ) (hA : A ≠ 0) (hB : B ≠ 0) (hr : r ≠ 0)
    (hS : S ≠ 0) (hT : T ≠ 0) (hu : u ≠ 0) (hnu : nu ≠ 0)
    (hN1 : N - 1 ≠ 0) (hN2 : N + 1 ≠ 0) :
    -(8⁻¹ * (((B ^ 2 / r ^ 2 - A ^ 2 / r ^ 2) * N - (N + 1) + (T * T / (u * u))⁻¹ - (S * S / (u * u))⁻¹) * (N - 1) + (B ^ 2 / r ^ 2 / (S * S / (u * u)) - A ^ 2 / r ^ 2 / (T * T / (u * u))) * N + (N ^ 2 * (B ^ 2 / r ^ 2 / (A ^ 2 / r ^ 2))⁻¹ - T * T / (u * u) / (S * S / (u * u)))) * g * (r * r / u)) / ((N ^ 2 * (B / r / (A / r) - A / r / (B / r)) ^ 2 - (T / u / (S / u) - (T / u / (S / u))⁻¹) ^ 2) * (N - 1) * nu) * N * (S / A) + -(-(8⁻¹ * (((B ^ 2 / r ^ 2 - A ^ 2 / r ^ 2) * N - (N - 1) - T * T / (u * u) + S * S / (u * u)) * (N + 1) - (B ^ 2 / r ^ 2 * (S * S / (u * u)) - T * T / (u * u) * (A ^ 2 / r ^ 2)) * N + (N ^ 2 * (B ^ 2 / r ^ 2 / (A ^ 2 / r ^ 2))⁻¹ - (T * T / (u * u) / (S * S / (u * u)))⁻¹)) * g * (u * (r * r))) / ((N ^ 2 * (B / r / (A / r) - A / r / (B / r)) ^ 2 - (T / u / (S / u) - (T / u / (S / u))⁻¹) ^ 2) * (N + 1) * nu) * N * ((S)⁻¹ / A)) + -(8⁻¹ * (T * T / (u * u) / (S * S / (u * u)) - N ^ 2 * (B ^ 2 / r ^ 2 / (A ^ 2 / r ^ 2)) - (1 - N + N * ((B ^ 2 / r ^ 2)⁻¹ - (A ^ 2 / r ^ 2)⁻¹) - (T * T / (u * u))⁻¹ + (S * S / (u * u))⁻¹) * (N + 1) - N * ((A ^ 2 / r ^ 2)⁻¹ * (T * T / (u * u))⁻¹ - (S * S / (u * u))⁻¹ * (B ^ 2 / r ^ 2)⁻¹)) * g) / ((N ^ 2 * (B / r / (A / r) - A / r / (B / r)) ^ 2 - (T / u / (S / u) - (T / u / (S / u))⁻¹) ^ 2) * (N + 1) * nu * u) * (N + 2) * (S * A) + -(8⁻¹ * ((T * T / (u * u) / (S * S / (u * u)))⁻¹ - N ^ 2 * (B ^ 2 / r ^ 2 / (A ^ 2 / r ^ 2)) - (-1 + -N + N * ((B ^ 2 / r ^ 2)⁻¹ - (A ^ 2 / r ^ 2)⁻¹) + T * T / (u * u) - S * S / (u * u)) * (N - 1) + N * (T * T / (u * u) / (A ^ 2 / r ^ 2) - S * S / (u * u) / (B ^ 2 / r ^ 2))) * g * u) / ((N ^ 2 * (B / r / (A / r) - A / r / (B / r)) ^ 2 - (T / u / (S / u) - (T / u / (S / u))⁻¹) ^ 2) * (N - 1) * nu) * (-N + 2) * ((S)⁻¹ * A) = 0 := by
  rcases eq_or_ne (N ^ 2 * (B / r / (A / r) - A / r / (B / r)) ^ 2 - (T / u / (S / u) - (T / u / (S / u))⁻¹) ^ 2) 0 with hQ | hQ
  · rw [hQ]
    simp
  · have hfrac : N ^ 2 * (B / r / (A / r) - A / r / (B / r)) ^ 2 - (T / u / (S / u) - (T / u / (S / u))⁻¹) ^ 2 =
        (N ^ 2 * (B * B - A * A) ^ 2 * (S * S) * (T * T) -
          (T * T - S * S) ^ 2 * (A * A) * (B * B)) /
        (A * A * (B * B) * (S * S) * (T * T)) := by
      field_simp
      ring
    have hE : N ^ 2 * (B * B - A * A) ^ 2 * (S * S) * (T * T) -
        (T * T - S * S) ^ 2 * (A * A) * (B * B) ≠ 0 := by
      intro h
      exact hQ (by rw [hfrac, h, zero_div])
    rw [hfrac]
    field_simp
    ring

set_option maxHeartbeats 6400000 in
lemma ns_boundary_core_inner (A B r S T u g nu N : ℚ) (hA : A ≠ 0) (hB : B ≠ 0) (hr : r ≠ 0)
    (hS : S ≠ 0) (hT : T ≠ 0) (hu : u ≠ 0) (hnu : nu ≠ 0)
    (hN1 : N - 1 ≠ 0) (hN2 : N + 1 ≠ 0) :
    -(8⁻¹ * (((B ^ 2 / r ^ 2 - A ^ 2 / r ^ 2) * N - (-1 + -N) + (T * T / (u * u))⁻¹ - (S * S / (u * u))⁻¹) * (N - 1) + (B ^ 2 / r ^ 2 / (S * S / (u * u)) - A ^ 2 / r ^ 2 / (T * T / (u * u))) * N + ((T * T / (u * u) / (S * S / (u * u)))⁻¹ - N ^ 2 * (B ^ 2 / r ^ 2 / (A ^ 2 / r ^ 2)))) * g * (r * r / u)) / ((N ^ 2 * (B / r / (A / r) - A / r / (B / r)) ^ 2 - (T / u / (S / u) - (T / u / (S / u))⁻¹) ^ 2) * (N - 1) * nu) * N * (T / B) + -(-(8⁻¹ * (((B ^ 2 / r ^ 2 - A ^ 2 / r ^ 2) * N - (1 - N) - T * T / (u * u) + S * S / (u * u)) * (N + 1) - (B ^ 2 / r ^ 2 * (S * S / (u * u)) - T * T / (u * u) * (A ^ 2 / r ^ 2)) * N + (T * T / (u * u) / (S * S / (u * u)) - N ^ 2 * (B ^ 2 / r ^ 2 / (A ^ 2 / r ^ 2)))) * g * (u * (r * r))) / ((N ^ 2 * (B / r / (A / r) - A / r / (B / r)) ^ 2 - (T / u / (S / u) - (T / u / (S / u))⁻¹) ^ 2) * (N + 1) * nu) * N * ((T)⁻¹ / B)) + -(8⁻¹ * (N ^ 2 * (B ^ 2 / r ^ 2 / (A ^ 2 / r ^ 2))⁻¹ - (T * T / (u * u) / (S * S / (u * u)))⁻¹ - (N - 1 + N * ((B ^ 2 / r ^ 2)⁻¹ - (A ^ 2 / r ^ 2)⁻¹) - (T * T / (u * u))⁻¹ + (S * S / (u * u))⁻¹) * (N + 1) - N * ((A ^ 2 / r ^ 2)⁻¹ * (T * T / (u * u))⁻¹ - (S * S / (u * u))⁻¹ * (B ^ 2 / r ^ 2)⁻¹)) * g) / ((N ^ 2 * (B / r / (A / r) - A / r / (B / r)) ^ 2 - (T / u / (S / u) - (T / u / (S / u))⁻¹) ^ 2) * (N + 1) * nu * u) * (N + 2) * (T * B) + -(8⁻¹ * (N ^ 2 * (B ^ 2 / r ^ 2 / (A ^ 2 / r ^ 2))⁻¹ - T * T / (u * u) / (S * S / (u * u)) - (N + 1 + N * ((B ^ 2 / r ^ 2)⁻¹ - (A ^ 2 / r ^ 2)⁻¹) + T * T / (u * u) - S * S / (u * u)) * (N - 1) + N * (T * T / (u * u) / (A ^ 2 / r ^ 2) - S * S / (u * u) / (B ^ 2 / r ^ 2))) * g * u) / ((N ^ 2 * (B / r / (A / r) - A / r / (B / r)) ^ 2 - (T / u / (S / u) - (T / u / (S / u))⁻¹) ^ 2) * (N - 1) * nu) * (-N + 2) * ((T)⁻¹ * B) = 0 := by
  rcases eq_or_ne (N ^ 2 * (B / r / (A / r) - A / r / (B / r)) ^ 2 - (T / u / (S / u) - (T / u / (S / u))⁻¹) ^ 2) 0 with hQ | hQ
  · rw [hQ]
    simp
  · have hfrac : N ^ 2 * (B / r / (A / r) - A / r / (B / r)) ^ 2 - (T / u / (S / u) - (T / u / (S / u))⁻¹) ^ 2 =
        (N ^ 2 * (B * B - A * A) ^ 2 * (S * S) * (T * T) -
          (T * T - S * S) ^ 2 * (A * A) * (B * B)) /
        (A * A * (B * B) * (S * S) * (T * T)) := by
      field_simp
      ring
    have hE : N ^ 2 * (B * B - A * A) ^ 2 * (S * S) * (T * T) -
        (T * T - S * S) ^ 2 * (A * A) * (B * B) ≠ 0 := by
      intro h
      exact hQ (by rw [hfrac, h, zero_div])
    rw [hfrac]
    field_simp
    ring

/-- C5 counterexample: with the spec's literal coefficient-to-basis pairing, the
tangential velocity (the derivative of the spec-paired radial profile) built from
the `sign = +1` coefficients of `coefficients_cylinder_delta_ns` does not vanish
at `r = Rp`, already for `Rp = 2, Rm = 1, rp = 3/2, n = 2, g = nu = 1`. -/
theorem claim5_spec_pairing_cex :
    coefficients_cylinder_delta_ns 2 1 (3/2) 2 1 1 1 =
      some (-(2075/31104), -(1025/5832), 325/46656, 775/3888) ∧
    dPsi_cylinder_specPairing (-(2075/31104), -(1025/5832), 325/46656, 775/3888) 2 2 ≠ 0 := by
  constructor <;>
    norm_num [coefficients_cylinder_delta_ns, template_cylinder_ns, signSelect,
      dPsi_cylinder_specPairing]

/-- C5 (amended): zero-slip boundary-condition satisfaction. For every
`0 < Rm < rp < Rp`, integer `n ≥ 2`, real `g` and nonzero `nu`, the tangential
velocity built from the radial profile
`psi(r) = A*r^n + B*r^(-n) + C*r^(n+2) + D*r^(-n+2)` (the coefficient-to-basis
pairing the coefficients of `coefficients_cylinder_delta_ns` actually satisfy,
amended from the spec's listed order) vanishes at `r = Rp` for the `sign = +1`
coefficients and at `r = Rm` for the `sign = -1` coefficients. -/
theorem claim5_zero_slip_boundary (Rp Rm rp : ℚ) (n : ℤ) (g nu : ℚ)
    (h0 : 0 < Rm) (h1 : Rm < rp) (h2 : rp < Rp) (hn : 2 ≤ n) (hnu : nu ≠ 0)
    (cp cm : ℚ × ℚ × ℚ × ℚ)
    (hcp : coefficients_cylinder_delta_ns Rp Rm rp n g nu 1 = some cp)
    (hcm : coefficients_cylinder_delta_ns Rp Rm rp n g nu (-1) = some cm) :
    dPsi_cylinder cp n Rp = 0 ∧ dPsi_cylinder cm n Rm = 0 := by
  have hrp0 : (0:ℚ) < rp := h0.trans h1
  have hrp : rp ≠ 0 := hrp0.ne'
  have hRm : Rm ≠ 0 := h0.ne'
  have hRp : Rp ≠ 0 := (h0.trans (h1.trans h2)).ne'
  have hS : Rp ^ (n : ℤ) ≠ 0 := zpow_ne_zero _ hRp
  have hT : Rm ^ (n : ℤ) ≠ 0 := zpow_ne_zero _ hRm
  have hu : rp ^ (n : ℤ) ≠ 0 := zpow_ne_zero _ hrp
  have hn' : (2:ℚ) ≤ (n:ℚ) := by exact_mod_cast hn
  have hN1 : ((n:ℚ) - 1) ≠ 0 := sub_ne_zero.mpr (by linarith)
  have hN2 : ((n:ℚ) + 1) ≠ 0 := by linarith
  simp only [coefficients_cylinder_delta_ns, signSelect, reduceCtorEq, reduceIte,
    Option.map_some', Option.some.injEq] at hcp hcm
  subst hcp hcm
  constructor <;> simp only [template_cylinder_ns, dPsi_cylinder] <;> norm_num <;>
    simp only [div_zpow, div_pow, one_div,
      zpow_split_two_mul _ hRm, zpow_split_two_mul _ hRp, zpow_split_two_mul _ hrp,
      zpow_split_neg_two_mul _ hRm, zpow_split_neg_two_mul _ hRp, zpow_split_neg_two_mul _ hrp,
      zpow_split_neg_add_two _ hrp, zpow_split_add_two _ hrp, zpow_split_neg,
      zpow_split_sub_one _ hRp, zpow_split_add_one _ hRp, zpow_split_neg_sub_one _ hRp,
      zpow_split_neg_add_one _ hRp,
      zpow_split_sub_one _ hRm, zpow_split_add_one _ hRm, zpow_split_neg_sub_one _ hRm,
      zpow_split_neg_add_one _ hRm, zpow_ofNat]
  · exact ns_boundary_core_outer Rp Rm rp (Rp ^ (n : ℤ)) (Rm ^ (n : ℤ)) (rp ^ (n : ℤ))
      g nu (n : ℚ) hRp hRm hrp hS hT hu hnu hN1 hN2
  · exact ns_boundary_core_inner Rp Rm rp (Rp ^ (n : ℤ)) (Rm ^ (n : ℤ)) (rp ^ (n : ℤ))
      g nu (n : ℚ) hRp hRm hrp hS hT hu hnu hN1 hN2

/-- C5 witness: the boundary conditions instantiated at
`Rp = 2, Rm = 1, rp = 3/2, n = 2, g = nu = 1` with the concrete returned tuples. -/
theorem claim5_zero_slip_boundary_witness :
    dPsi_cylinder (-(2075/31104), -(1025/5832), 325/46656, 775/3888) 2 2 = 0 ∧
    dPsi_cylinder (1813/31104, 3283/93312, -(539/46656), -(637/7776)) 2 1 = 0 :=
  claim5_zero_slip_boundary 2 1 (3/2) 2 1 1 (by norm_num) (by norm_num) (by norm_num)
    (by norm_num) (by norm_num) _ _
    (by norm_num [coefficients_cylinder_delta_ns, template_cylinder_ns, signSelect])
    (by norm_num [coefficients_cylinder_delta_ns, template_cylinder_ns, signSelect])

end Assess
